import Mathlib

/-!
Shallow embedding of the a11y-tree compressor (repository
Cassidy777/Compressed_a11y) in Lean 4, for checking the natural-language
specification against the code.

Conventions used throughout this development:

* Python strings are Lean String values; helper functions (pyStrip,
  pySplitTab, ...) mirror the Python string methods the source calls.
  Whitespace is modelled as the ASCII whitespace characters (space, tab,
  newline, carriage return, vertical tab, form feed); the inputs handled
  by this program are tab-separated ASCII dumps, and none of the claims
  hinges on non-ASCII whitespace.  Char.toLower is the ASCII lowering,
  matching Python lower() on this input class.
* Python int() on a stripped numeric literal is modelled as an optional
  sign followed by decimal digits.
* Machine integers are Lean Int (Python ints are unbounded, so no
  modulus is needed).  Python floor division (//) is Int.fdiv; a float
  true division by 2 followed by int() truncation is Int.tdiv of the sum
  by 2 (exact, because halves of integers are exactly representable).
  Pixel centers such as x + w/2 are represented doubled (2x + w) so the
  half-pixel values stay in Int; every comparison against them doubles
  the other side.  Fractional screen thresholds such as h * 0.65 are
  modelled as exact rationals (65 * h / 100 style comparisons); for the
  screen sizes relevant here this coincides with the Python float
  computation.
* Fallible Python code (operations that can raise) is embedded in
  Except String; a raised exception is an Except.error value.
-/

namespace A11y

/-- ASCII whitespace, as stripped by Python str.strip() on this input class. -/
def pyIsWs (c : Char) : Bool :=
  c = ' ' || c = '\t' || c = '\n' || c = '\r' || c = '\x0b' || c = '\x0c'

/-- Characters Python str.splitlines treats as line boundaries
(the ASCII ones; the dumps contain no U+2028/U+2029/NEL). -/
def isLineBreakChar (c : Char) : Bool :=
  c = '\n' || c = '\r' || c = '\x0b' || c = '\x0c' ||
  c = '\x1c' || c = '\x1d' || c = '\x1e'

/-- str.strip() on a character list. -/
def pyStripL (l : List Char) : List Char :=
  ((l.dropWhile pyIsWs).reverse.dropWhile pyIsWs).reverse

/-- Python str.strip(). -/
def pyStrip (s : String) : String := ⟨pyStripL s.data⟩

/-- Python str.strip(chars) restricted to a concrete character set. -/
def pyStripCharsL (cs : List Char) (l : List Char) : List Char :=
  ((l.dropWhile (cs.contains ·)).reverse.dropWhile (cs.contains ·)).reverse

/-- Python str.strip(chars). -/
def pyStripChars (cs : List Char) (s : String) : String := ⟨pyStripCharsL cs s.data⟩

/-- Python str.rstrip(chr(10)): drop trailing newline characters. -/
def pyRstripNewline (s : String) : String :=
  ⟨(s.data.reverse.dropWhile (· = '\n')).reverse⟩

/-- Python str.lower() (ASCII). -/
def pyLower (s : String) : String := ⟨s.data.map Char.toLower⟩

/-- Python str.split(sep) on a character list: split on every occurrence of
the separator, keeping empty parts; the empty input gives one empty part. -/
def splitCh (sep : Char) : List Char → List (List Char)
  | [] => [[]]
  | c :: rest =>
    match splitCh sep rest with
    | [] => [[c]]
    | g :: gs => if c = sep then [] :: g :: gs else (c :: g) :: gs

/-- Python line.split(chr(9)). -/
def pySplitTab (s : String) : List String := (splitCh '\t' s.data).map (⟨·⟩)

/-- Python s.split(sep) for a one-character separator. -/
def pySplitOn (sep : Char) (s : String) : List String :=
  (splitCh sep s.data).map (⟨·⟩)

/-- Python str.splitlines() (line list, no terminators, no trailing empty
line for a trailing terminator; a CR LF pair is one boundary). -/
def splitlinesCh : List Char → List (List Char)
  | [] => []
  | '\r' :: '\n' :: rest => [] :: splitlinesCh rest
  | c :: rest =>
    if isLineBreakChar c then
      [] :: splitlinesCh rest
    else
      match splitlinesCh rest with
      | [] => [[c]]
      | l :: ls => (c :: l) :: ls

/-- Python text.splitlines(). -/
def pySplitlines (s : String) : List String := (splitlinesCh s.data).map (⟨·⟩)

/-- Does the first list occur at the head of the second one? -/
def listStarts : List Char → List Char → Bool
  | [], _ => true
  | _ :: _, [] => false
  | a :: pre, b :: l => a = b && listStarts pre l

/-- Substring search on character lists. -/
def hasSubstrL (needle : List Char) : List Char → Bool
  | [] => listStarts needle []
  | l@(_ :: t) => listStarts needle l || hasSubstrL needle t

/-- Python membership test sub in s on strings. -/
def pyInStr (sub s : String) : Bool := hasSubstrL sub.data s.data

/-- Python s.startswith(pre). -/
def strStarts (s pre : String) : Bool := listStarts pre.data s.data

/-- Python s.endswith(post). -/
def strEnds (s post : String) : Bool := listStarts post.data.reverse s.data.reverse

/-- Python int() on an already stripped literal: optional sign and at
least one decimal digit; anything else raises (None here). -/
def pyInt? (s : String) : Option Int :=
  let core : List Char → Option Int := fun ds =>
    if ds ≠ [] && ds.all Char.isDigit then
      some (ds.foldl (fun a c => a * 10 + (c.toNat - 48)) (0 : Int))
    else none
  match s.data with
  | '-' :: rest => (core rest).map (fun v => -v)
  | '+' :: rest => core rest
  | l => core l

/-- Matcher for the coordinate regular expression of a11y_utils
(open paren, spaces, digits, comma, spaces, digits, spaces, close paren)
anchored at the head of the list, the rest of the input being arbitrary
(re.match semantics). -/
def coordMatchL (l : List Char) : Bool :=
  match l with
  | '(' :: rest =>
    let r1 := rest.dropWhile pyIsWs
    match r1.dropWhile Char.isDigit with
    | ',' :: r3 =>
      (r1.takeWhile Char.isDigit ≠ []) &&
      (let r4 := r3.dropWhile pyIsWs
       match (r4.dropWhile Char.isDigit).dropWhile pyIsWs with
       | ')' :: _ => r4.takeWhile Char.isDigit ≠ []
       | _ => false)
    | _ => false
  | _ => false

/-- COORD_RE.match(s): match at the start of the string. -/
def COORD_RE_match (s : String) : Bool := coordMatchL s.data

/-- Search helper: does the coordinate pattern match at any position? -/
def coordSearchL : List Char → Bool
  | [] => false
  | l@(_ :: t) => coordMatchL l || coordSearchL t

/-- COORD_RE.search(s): match anywhere in the string. -/
def COORD_RE_search (s : String) : Bool := coordSearchL s.data

/-! ## a11y_utils.py : the tree reconstructor -/

/-- KNOWN_TAGS from a11y_utils.py. -/
def KNOWN_TAGS : List String :=
  ["label", "text", "static", "push-button", "check-box", "radio-button",
   "combo-box", "spin-button", "menu", "menu-item", "entry", "heading",
   "toggle-button", "link", "table-cell", "paragraph", "image",
   "scroll-bar", "list-item", "document-presentation", "document-frame",
   "terminal"]

/-- Membership in the known-tag vocabulary. -/
def knownTag (t : String) : Bool := KNOWN_TAGS.contains t

/-- One reconstructed accessibility-tree node (the dict built by
parse_raw_a11y).  The kind and bbox fields model dict keys that other
modules read with .get but that the reconstructor never writes; for every
parser-produced node they are none. -/
structure PNode where
  tag : String := ""
  name : String := ""
  text : String := ""
  description : String := ""
  role : String := ""
  states : List String := []
  raw : String := ""
  kind : Option String := none
  bboxX : Option Int := none
  bboxY : Option Int := none
  bboxW : Option Int := none
  bboxH : Option Int := none
deriving Repr, DecidableEq, Inhabited

/-- Unguarded Python list indexing: raises IndexError when out of range. -/
def pyIdx (l : List String) (i : Nat) : Except String String :=
  match l.get? i with
  | some a => Except.ok a
  | none => Except.error "IndexError"

/-- Python parts[i].strip() if len(parts) > i else the empty string. -/
def colD (parts : List String) (i : Nat) : String := pyStrip (parts.getD i "")

/-- The node built when a pending paragraph buffer is flushed
(both mid-stream and at end of input use this positional extraction). -/
def flushPendingNode (pl : String) : Except String PNode :=
  match pyIdx (pySplitTab pl) 0 with
  | Except.error e => Except.error e
  | Except.ok p0 =>
    Except.ok { tag := pyStrip p0, name := colD (pySplitTab pl) 1,
                text := colD (pySplitTab pl) 2,
                description := "", role := "", states := [],
                raw := pyStrip pl }

/-- The node built from a well-formed line (the full-line path of
parse_raw_a11y, including the paragraph / terminal description merge). -/
def wellFormedNode (originalLine : String) (parts : List String)
    (tag : String) : PNode :=
  let name := colD parts 1
  let text0 := colD parts 2
  let desc0 := colD parts 3
  let role := colD parts 4
  let states :=
    if parts.length > 7 then
      let rawStates := colD parts 7
      if rawStates ≠ "" then (pySplitOn ',' rawStates).map pyStrip else []
    else []
  let textDesc :=
    if (tag = "paragraph" || tag = "terminal") && desc0 ≠ "" then
      if text0 ≠ "" then (pyStrip (text0 ++ " " ++ desc0), "")
      else (desc0, "")
    else (text0, desc0)
  { tag := tag, name := name, text := textDesc.1, description := textDesc.2,
    role := role, states := states, raw := pyRstripNewline originalLine }

/-- The continuation-line merge: a line whose first column is not a known
tag is folded into the most recently emitted node. -/
def mergeContinuation (last : PNode) (parts : List String) : PNode :=
  let cols := (parts.map pyStrip).filter (· ≠ "")
  let textCols := cols.filter (fun c => !COORD_RE_match c)
  let coordCols := cols.filter (fun c => COORD_RE_match c)
  let merged := pyStrip (String.intercalate " " textCols)
  if merged = "" then
    if coordCols ≠ [] then
      { last with raw := last.raw ++ "\t" ++ String.intercalate "\t" coordCols }
    else last
  else
    let isPara := last.tag = "paragraph" || last.tag = "terminal"
    let sep := if isPara then "\n" else " "
    let last' :=
      if last.text ≠ "" then { last with text := pyStrip (last.text ++ sep ++ merged) }
      else if isPara then { last with text := merged }
      else { last with name := pyStrip (last.name ++ sep ++ merged) }
    if coordCols ≠ [] then
      { last' with raw := last'.raw ++ "\t" ++ String.intercalate "\t" coordCols }
    else last'

/-- Header-line test of parse_raw_a11y (applied to the stripped line). -/
def isHeaderStripped (stripped : String) : Bool :=
  strStarts stripped "LINEAR AT:" || strStarts stripped "PROPERTY:" ||
  strStarts stripped "tag\tname\t"

/-- Parser state: nodes emitted so far (in reverse, the head being the
most recently emitted node that continuation lines mutate) and the
pending paragraph buffer. -/
structure PState where
  rev : List PNode := []
  pending : Option String := none
deriving Repr, DecidableEq

/-- The single-line main phase of parse_raw_a11y (everything after
pending resolution: the tag-header re-check, the well-formed path, the
paragraph buffering, the incomplete known-tag path and the continuation
merge).  It raises nothing. -/
def processMain (rev : List PNode) (oline strippedNow : String)
    (partsNow : List String) (tagNow : String) : PState :=
  if pyLower tagNow = "tag" then ⟨rev, none⟩
  else
    let isWellFormed := partsNow.length ≥ 5 && knownTag tagNow
    if !isWellFormed then
      if tagNow = "paragraph" then ⟨rev, some oline⟩
      else if knownTag tagNow then
        let node : PNode :=
          { tag := tagNow, name := colD partsNow 1, text := colD partsNow 2,
            description := colD partsNow 3, role := colD partsNow 4,
            states := [], raw := strippedNow }
        ⟨node :: rev, none⟩
      else
        match rev with
        | [] => ⟨rev, none⟩
        | last :: restRev => ⟨mergeContinuation last partsNow :: restRev, none⟩
    else
      ⟨wellFormedNode oline partsNow tagNow :: rev, none⟩

/-- Processing of one input line of parse_raw_a11y: skip blank and
header lines, resolve a pending paragraph buffer (merge or flush), then
run the main phase. -/
def processLine (st : PState) (line : String) : Except String PState :=
  let stripped := pyStrip line
  if stripped = "" then Except.ok st
  else if isHeaderStripped stripped then Except.ok st
  else
    let parts := pySplitTab line
    let tagCand := pyStrip (parts.headD "")
    match st.pending with
    | none => Except.ok (processMain st.rev line stripped parts tagCand)
    | some pl =>
      let combined := pl ++ "\t" ++ stripped
      let cparts := pySplitTab combined
      match pyIdx cparts 0 with
      | Except.error e => Except.error e
      | Except.ok c0 =>
        let ctag := pyStrip c0
        if cparts.length ≥ 5 && knownTag ctag && COORD_RE_search combined then
          Except.ok (processMain st.rev combined (pyStrip combined) cparts ctag)
        else
          match flushPendingNode pl with
          | Except.error e => Except.error e
          | Except.ok node =>
            Except.ok (processMain (node :: st.rev) line stripped parts tagCand)

/-- Fold of processLine over the input lines. -/
def runLines : PState → List String → Except String PState
  | st, [] => Except.ok st
  | st, l :: ls =>
    match processLine st l with
    | Except.ok st' => runLines st' ls
    | Except.error e => Except.error e

/-- parse_raw_a11y from a11y_utils.py: the tolerant tree reconstructor.
Returns the emitted nodes in order; an Except.error value would be a
raised exception. -/
def parse_raw_a11y (text : String) : Except String (List PNode) :=
  match runLines ⟨[], none⟩ (pySplitlines text) with
  | Except.error e => Except.error e
  | Except.ok st =>
    match st.pending with
    | none => Except.ok st.rev.reverse
    | some pl =>
      match flushPendingNode pl with
      | Except.error e => Except.error e
      | Except.ok node => Except.ok (node :: st.rev).reverse

/-! ## domain_detector.py -/

/-- Parse a parenthesized pair such as a position or size column:
the string must start with an open paren and end with a close paren; the
inside is split on the comma.  Returns the two raw halves, or none when
the shape (or the comma count) is wrong, which in the source raises and
is caught. -/
def parenPair? (pos : String) : Option (String × String) :=
  if strStarts pos "(" && strEnds pos ")" then
    match pySplitOn ',' ⟨(pos.data.drop 1).dropLast⟩ with
    | [a, b] => some (a, b)
    | _ => none
  else none

/-- domain_detector._extract_xy_from_raw: read (x, y) from the position
column (index 5) of the raw line; any failure gives (0, 0).  Here the
return tuple is built atomically, so a failing y parse also zeroes x. -/
def _extract_xy_from_raw (raw : String) : Int × Int :=
  if raw = "" || !pyInStr "\t(" raw then (0, 0)
  else
    let parts := pySplitTab raw
    if parts.length < 6 then (0, 0)
    else
      let pos := pyStrip (parts.getD 5 "")
      match parenPair? pos with
      | none => (0, 0)
      | some (xs, ys) =>
        match pyInt? (pyStrip xs), pyInt? (pyStrip ys) with
        | some x, some y => (x, y)
        | _, _ => (0, 0)

/-- The size half of domain_detector._estimate_screen_size: read (w, h)
from the size column (index 6).  The two int() calls are separate
statements inside the try, so a failing h parse keeps the parsed w. -/
def sizeWHFromRaw (raw : String) : Int × Int :=
  let parts := pySplitTab raw
  if parts.length ≥ 7 then
    let size := pyStrip (parts.getD 6 "")
    match parenPair? size with
    | none => (0, 0)
    | some (ws, hs) =>
      match pyInt? (pyStrip ws) with
      | none => (0, 0)
      | some w => (w, (pyInt? (pyStrip hs)).getD 0)
  else (0, 0)

/-- The per-node extent (x + w, y + h) accumulated by
_estimate_screen_size. -/
def nodeExtent (n : PNode) : Int × Int :=
  let xy := _extract_xy_from_raw n.raw
  let wh := sizeWHFromRaw n.raw
  (xy.1 + wh.1, xy.2 + wh.2)

/-- domain_detector._estimate_screen_size: max of (x+w, y+h) over all
nodes, with 1920 and 1080 substituted for non-positive maxima. -/
def _estimate_screen_size (nodes : List PNode) : Int × Int :=
  let m := nodes.foldl
    (fun (acc : Int × Int) n =>
      let e := nodeExtent n
      (max acc.1 e.1, max acc.2 e.2))
    (0, 0)
  (if m.1 ≤ 0 then 1920 else m.1, if m.2 ≤ 0 then 1080 else m.2)

/-- domain_detector._score_chrome. -/
def _score_chrome (nodes : List PNode) : Int :=
  nodes.foldl
    (fun score n =>
      let tag := pyLower n.tag
      let name := pyLower n.name
      let score := if pyInStr "google chrome" name then score + 15 else score
      let score :=
        if tag = "entry" && pyInStr "address and search bar" name then score + 20
        else score
      let score :=
        if tag = "push-button" &&
           ["search tabs", "new tab", "bookmark this tab", "side panel",
            "you", "new chrome available", "google apps"].contains name
        then score + 6 else score
      let score :=
        if (tag = "entry" || tag = "push-button") &&
           ["bookmark name", "folder", "done"].contains name
        then score + 4 else score
      let score :=
        if tag = "link" && ["gmail", "search for images"].contains name
        then score + 3 else score
      if tag = "link" then score + 1 else score)
    0

/-- The (x, y) extraction inlined in _score_gimp: the position column
stripped of parens only (no whitespace strip on the column), and the two
int() calls are separate statements, so a failing y parse keeps the
parsed x. -/
def gimpXY (raw : String) : Int × Int :=
  if pyInStr "\t(" raw then
    let parts := pySplitTab raw
    if parts.length ≥ 5 + 1 then
      let pos := pyStripChars ['(', ')'] (parts.getD 5 "")
      match pySplitOn ',' pos with
      | [xs, ys] =>
        (match pyInt? (pyStrip xs) with
         | none => (0, 0)
         | some x => (x, (pyInt? (pyStrip ys)).getD 0))
      | _ => (0, 0)
    else (0, 0)
  else (0, 0)

/-- The menubar-band test of _score_gimp: a menu whose y sits between 40
and 90. -/
def gimpMenubarCond (n : PNode) : Bool :=
  pyLower n.tag = "menu" &&
  (let y := (gimpXY n.raw).2
   40 ≤ y && y ≤ 90)

/-- Is this node a given menu entry of the top menubar band, as
_score_gimp tests it? -/
def gimpMenuHit (menuName : String) (n : PNode) : Bool :=
  gimpMenubarCond n && pyLower n.name = menuName

/-- The accumulator of the _score_gimp scan: the running score and the
five menu flags. -/
structure GimpAcc where
  score : Int := 0
  hasFile : Bool := false
  hasEdit : Bool := false
  hasImage : Bool := false
  hasLayer : Bool := false
  hasColors : Bool := false
deriving Repr, DecidableEq

/-- The window-title bonus of the _score_gimp loop. -/
def gimpTitleStep (acc : GimpAcc) (n : PNode) : GimpAcc :=
  if pyInStr "gnu image manipulation program" (pyLower n.name) ||
     pyInStr "gnu image manipulation program" (pyLower n.text)
  then { acc with score := acc.score + 20 } else acc

/-- The menubar dispatch of the _score_gimp loop. -/
def gimpMenuStep (acc : GimpAcc) (n : PNode) : GimpAcc :=
  if gimpMenubarCond n then
    let name := pyLower n.name
    if name = "file" then { acc with score := acc.score + 2, hasFile := true }
    else if name = "edit" then { acc with score := acc.score + 2, hasEdit := true }
    else if name = "image" then { acc with score := acc.score + 8, hasImage := true }
    else if name = "layer" then { acc with score := acc.score + 8, hasLayer := true }
    else if name = "colors" then { acc with score := acc.score + 8, hasColors := true }
    else if name = "filters" then { acc with score := acc.score + 5 }
    else acc
  else acc

/-- The right-dock weak signal of the _score_gimp loop. -/
def gimpDockStep (acc : GimpAcc) (n : PNode) : GimpAcc :=
  if (gimpXY n.raw).1 > 1650 then { acc with score := acc.score + 1 } else acc

/-- One loop iteration of domain_detector._score_gimp. -/
def gimpStep (acc : GimpAcc) (n : PNode) : GimpAcc :=
  gimpDockStep (gimpMenuStep (gimpTitleStep acc n) n) n

/-- domain_detector._score_gimp: the additive scan, before the triad
gate. -/
def gimpScan (nodes : List PNode) : GimpAcc := nodes.foldl gimpStep {}

/-- domain_detector._score_gimp with its Image/Layer/Colors triad gate. -/
def _score_gimp (nodes : List PNode) : Int :=
  let a := gimpScan nodes
  if !(a.hasImage && a.hasLayer && a.hasColors) then 0
  else
    let score := a.score + 5
    if a.hasFile && a.hasEdit then score + 3 else score

/-- domain_detector._score_vsc. -/
def _score_vsc (nodes : List PNode) : Int :=
  nodes.foldl
    (fun score n =>
      let name := pyLower n.name
      let text := pyLower n.text
      if pyInStr "visual studio code" name || pyInStr "visual studio code" text
      then score + 20 else score)
    0

/-- domain_detector._score_libreoffice_calc.  The y coordinate comes from
the bbox dict key, defaulting to 9999 (parser-produced nodes never carry
a bbox). -/
def _score_libreoffice_calc (nodes : List PNode) : Int :=
  let scan := nodes.foldl
    (fun (acc : Int × Bool × Bool × Nat) n =>
      let (score, hasSheet, hasData, cells) := acc
      let tag := pyLower n.tag
      let name := pyLower n.name
      let y : Int := n.bboxY.getD 9999
      let menubar := tag = "menu" && 40 ≤ y && y ≤ 120
      let (score, hasSheet) :=
        if menubar && name = "sheet" then (score + 8, true) else (score, hasSheet)
      let (score, hasData) :=
        if menubar && name = "data" then (score + 6, true) else (score, hasData)
      let (score, cells) :=
        if tag = "table-cell" then
          (if cells + 1 ≤ 300 then score + 1 else score, cells + 1)
        else (score, cells)
      (score, hasSheet, hasData, cells))
    (0, false, false, 0)
  let (score, hasSheet, _hasData, cells) := scan
  let score := if cells > 50 then score + 10 else score
  let score := if cells > 200 then score + 10 else score
  if hasSheet && cells > 20 then score + 10 else score

/-- domain_detector._score_libreoffice_impress. -/
def _score_libreoffice_impress (nodes : List PNode) : Int :=
  let scan := nodes.foldl
    (fun (acc : Int × Bool × Bool) n =>
      let (score, hasSlide, hasShow) := acc
      let tag := pyLower n.tag
      let name := pyLower n.name
      let score :=
        if pyInStr "libreoffice impress" name || pyInStr "libreoffice presentation" name
        then score + 20 else score
      let (score, hasSlide, hasShow) :=
        if tag = "menu" then
          if name = "slide" then (score + 5, true, hasShow)
          else if name = "slide show" then (score + 5, hasSlide, true)
          else (score, hasSlide, hasShow)
        else (score, hasSlide, hasShow)
      let score := if tag = "document-presentation" then score + 15 else score
      (score, hasSlide, hasShow))
    (0, false, false)
  let (score, hasSlide, hasShow) := scan
  if hasSlide && hasShow then score + 5 else score

/-- domain_detector._score_libreoffice_writer.  (The OS_DOCK_APP_NAMES
set literal that follows the return statement in the source is dead code
inside this function and never executes, so it is not part of this
definition.) -/
def _score_libreoffice_writer (nodes : List PNode) : Int :=
  let scan := nodes.foldl
    (fun (acc : Int × Bool × Bool) n =>
      let (score, hasStyles, hasTable) := acc
      let tag := pyLower n.tag
      let name := pyLower n.name
      let score := if pyInStr "libreoffice writer" name then score + 20 else score
      let (score, hasStyles, hasTable) :=
        if tag = "menu" then
          if name = "styles" then (score + 5, true, hasTable)
          else if name = "table" then (score + 3, hasStyles, true)
          else (score, hasStyles, hasTable)
        else (score, hasStyles, hasTable)
      let score := if tag = "document-text" then score + 15 else score
      (score, hasStyles, hasTable))
    (0, false, false)
  let (score, hasStyles, hasTable) := scan
  if hasStyles && hasTable then score + 5 else score

/-- domain_detector._has_os_dock.  The module-level name
OS_DOCK_APP_NAMES does not exist: its only assignment sits, indented,
after the return statement of _score_libreoffice_writer, so it is
unreachable dead code.  The first node that passes the tag, bbox and
launcher-geometry guards therefore makes the Python function raise
NameError at the membership test; if no node gets that far, the dock
counter stays 0 and the function returns False. -/
def _has_os_dock (nodes : List PNode) : Except String Bool :=
  let rec go (dockLike : Nat) : List PNode → Except String Nat
    | [] => Except.ok dockLike
    | n :: rest =>
      let tag := pyLower n.tag
      if !(tag = "push-button" || tag = "toggle-button") then go dockLike rest
      else
        match n.bboxX, n.bboxW, n.bboxH with
        | some x, some w, some h =>
          if x ≤ 5 && 40 ≤ h && h ≤ 90 && 50 ≤ w && w ≤ 90 then
            Except.error "NameError: name OS_DOCK_APP_NAMES is not defined"
          else go dockLike rest
        | _, _, _ => go dockLike rest
  match go 0 nodes with
  | Except.error e => Except.error e
  | Except.ok dockLike => Except.ok (dockLike ≥ 4)

/-- The sidebar keyword set of _score_os. -/
def filesSidebarKeywords : List String :=
  ["recent", "starred", "home", "desktop", "documents", "downloads",
   "music", "pictures", "videos", "trash", "other locations"]

/-- The competing-domain keyword list of the _score_os fallback. -/
def otherDomainKeywords : List String :=
  ["google chrome", "mozilla firefox", "libreoffice calc",
   "libreoffice writer", "libreoffice impress",
   "gnu image manipulation program", "gimp", "visual studio code",
   "vlc media player"]

/-- The direct (landmark) part of domain_detector._score_os: the score
accumulated before the dock fallback. -/
def osDirectScore (nodes : List PNode) : Int :=
  let scan := nodes.foldl
    (fun (acc : Int × Nat) n =>
      let (score, hits) := acc
      let tag := pyLower n.tag
      let name := pyLower n.name
      let text := pyLower n.text
      let score := if tag = "terminal" then score + 30 else score
      let score := if tag = "menu" && name = "terminal" then score + 15 else score
      let score :=
        if pyInStr "user@user-virtual-machine" name ||
           pyInStr "user@user-virtual-machine" text
        then score + 10 else score
      let score := if tag = "menu" && name = "files" then score + 15 else score
      let hits :=
        if tag = "label" && filesSidebarKeywords.contains name then hits + 1 else hits
      let score := if tag = "menu" && name = "ubuntu software" then score + 25 else score
      let score := if pyInStr "ubuntu software" text then score + 10 else score
      (score, hits))
    (0, 0)
  if scan.2 ≥ 3 then scan.1 + 10 else scan.1

/-- The lowered blob of all names and texts used by the _score_os
fallback guard. -/
def osTextBlob (nodes : List PNode) : String :=
  pyLower (String.intercalate " " (nodes.map (fun n => n.name ++ " " ++ n.text)))

/-- domain_detector._score_os, dock fallback included.  The fallback
calls _has_os_dock, whose exception propagates. -/
def _score_os (nodes : List PNode) : Except String Int :=
  let score := osDirectScore nodes
  if score = 0 then
    let hasOtherDomainHint := otherDomainKeywords.any (fun kw => pyInStr kw (osTextBlob nodes))
    match _has_os_dock nodes with
    | Except.error e => Except.error e
    | Except.ok dock => Except.ok (if dock && !hasOtherDomainHint then 5 else 0)
  else Except.ok score

/-- The per-domain score table of detect_domain_and_scores, in the
insertion (evaluation) order of the Python dict. -/
def domainScoreTable (nodes : List PNode) : Except String (List (String × Int)) :=
  match _score_os nodes with
  | Except.error e => Except.error e
  | Except.ok so =>
    Except.ok
      [("gimp", _score_gimp nodes),
       ("chrome", _score_chrome nodes),
       ("vsc", _score_vsc nodes),
       ("libreoffice_calc", _score_libreoffice_calc nodes),
       ("libreoffice_impress", _score_libreoffice_impress nodes),
       ("libreoffice_writer", _score_libreoffice_writer nodes),
       ("os", so)]

/-- The winner-selection loop of detect_domain_and_scores: start from
("generic", 0) and replace the best only on a strictly greater score. -/
def pickBestDomain (scores : List (String × Int)) : String × Int :=
  scores.foldl (fun best p => if p.2 > best.2 then p else best) ("generic", 0)

/-- domain_detector.detect_domain_and_scores. -/
def detect_domain_and_scores (nodes : List PNode) :
    Except String (String × List (String × Int)) :=
  match domainScoreTable nodes with
  | Except.error e => Except.error e
  | Except.ok scores => Except.ok ((pickBestDomain scores).1, scores)

/-! ## Geometry helpers of core/common_ops.py

The module core/common_ops.py itself is not part of the sources provided
(only its callers are), so its two geometry helpers are modelled from the
spec. -/

/-- A bounding box in screen pixels. -/
structure BBox where
  x : Int
  y : Int
  w : Int
  h : Int
deriving Repr, DecidableEq, Inhabited

/-- Modelled from the spec: node_bbox_from_raw (core/common_ops.py, not in
the provided sources).  Per the spec, geometry helpers derive bounding
boxes from the Element record, reading the parenthesized position column
and size column of the raw line, and "default to a degenerate zero-sized
box at origin rather than fail" when geometry is absent or malformed.
The column extraction follows the same position/size column convention
the in-repository extractors (_extract_xy_from_raw, _estimate_screen_size)
use. -/
def node_bbox_from_raw (n : PNode) : BBox :=
  let xy := _extract_xy_from_raw n.raw
  let wh := sizeWHFromRaw n.raw
  { x := xy.1, y := xy.2, w := wh.1, h := wh.2 }

/-- Modelled from the spec: bbox_to_center_tuple (core/common_ops.py, not
in the provided sources).  The spec's serialization emits integer pixel
centers (centerX, centerY); the center is the box origin plus half the
extent, halves taken as floor. -/
def bbox_to_center_tuple (b : BBox) : Int × Int :=
  (b.x + b.w.fdiv 2, b.y + b.h.fdiv 2)

/-- int(v * (num/den)) for a non-negative fractional constant written
num/den: the exact-rational model of the Python float expression, with
the int() truncation toward zero. -/
def ratioTrunc (v num den : Int) : Int := Int.tdiv (v * num) den

/-- Stable insertion sort (Python list.sort): an element is inserted
after the existing elements whose key is not greater. -/
def insertByLe (le : α → α → Bool) (x : α) : List α → List α
  | [] => [x]
  | y :: ys => if le y x then y :: insertByLe le x ys else x :: y :: ys

/-- Stable sort by a boolean le relation. -/
def sortByStable (le : α → α → Bool) (l : List α) : List α :=
  l.foldl (fun acc x => insertByLe le x acc) []

/-- statistics.median on an integer list, wrapped in the int() the
callers apply: middle element of the sorted list, or the truncated mean
of the two middle elements. -/
def medianInt (l : List Int) : Int :=
  let s := sortByStable (fun a b => a ≤ b) l
  let n := s.length
  if n % 2 = 1 then s.getD (n / 2) 0
  else Int.tdiv (s.getD (n / 2 - 1) 0 + s.getD (n / 2) 0) 2

/-! ## domains/chrome.py : constants and modal detectors -/

/-- COOKIE_BUTTON_ANCHORS from domains/chrome.py. -/
def COOKIE_BUTTON_ANCHORS : List String :=
  ["Accept Cookies", "Reject Non-Essential Cookies", "Cookies Settings",
   "Cookie Settings", "Accept all", "Reject all"]

/-- COOKIE_TEXT_KEYWORDS from domains/chrome.py. -/
def COOKIE_TEXT_KEYWORDS : List String :=
  ["cookie", "cookies", "privacy", "クッキー", "プライバシー"]

/-- BROWSER_UI_ANCHOR_BUTTONS from domains/chrome.py. -/
def BROWSER_UI_ANCHOR_BUTTONS : List String :=
  ["reload", "you", "chrome", "bookmark this tab"]

/-- BROWSER_UI_ANCHOR_ENTRIES from domains/chrome.py. -/
def BROWSER_UI_ANCHOR_ENTRIES : List String := ["address and search bar"]

/-- BROWSER_TAB_ANCHORS from domains/chrome.py. -/
def BROWSER_TAB_ANCHORS : List String := ["search tabs", "new tab", "close"]

/-- WINDOW_CONTROL_NAMES from domains/chrome.py. -/
def WINDOW_CONTROL_NAMES : List String :=
  ["minimise", "minimize", "restore", "maximize", "close"]

/-- Python (n.get("name") or n.get("text") or ""): the first non-empty
of name and text. -/
def nameOrText (n : PNode) : String := if n.name ≠ "" then n.name else n.text

/-- The label the chrome detectors read: name-or-text, stripped. -/
def nodeLabel (n : PNode) : String := pyStrip (nameOrText n)

/-- The anchor test of CookieBannerDetector for the node at one index:
in the footer band, a cookie button anchor or a push-button/link whose
label contains a cookie keyword. -/
def cookieAnchorCond (screenH : Int) (n : PNode) : Bool :=
  let cy := (bbox_to_center_tuple (node_bbox_from_raw n)).2
  if cy < ratioTrunc screenH 65 100 then false
  else
    let tag := pyLower n.tag
    let label := nodeLabel n
    let lower := pyLower label
    ((tag = "push-button" || tag = "link") && COOKIE_BUTTON_ANCHORS.contains label) ||
    (COOKIE_TEXT_KEYWORDS.any (fun kw => pyInStr kw lower) &&
     (tag = "push-button" || tag = "link"))

/-- The related-node test of CookieBannerDetector (anchor buttons plus
anything whose label mentions a cookie keyword, in the footer band). -/
def cookieRelatedCond (screenH : Int) (n : PNode) : Bool :=
  let cy := (bbox_to_center_tuple (node_bbox_from_raw n)).2
  if cy < ratioTrunc screenH 65 100 then false
  else
    let tag := pyLower n.tag
    let label := nodeLabel n
    let lower := pyLower label
    ((tag = "push-button" || tag = "link") && COOKIE_BUTTON_ANCHORS.contains label) ||
    COOKIE_TEXT_KEYWORDS.any (fun kw => pyInStr kw lower)

/-- The anchor indices the CookieBannerDetector loop accumulates. -/
def cookieAnchorIdxs (nodes : List PNode) (screenH : Int) : List Nat :=
  (nodes.enum.filter (fun p => cookieAnchorCond screenH p.2)).map Prod.fst

/-- The cookie-related indices the CookieBannerDetector loop accumulates. -/
def cookieRelatedIdxs (nodes : List PNode) (screenH : Int) : List Nat :=
  (nodes.enum.filter (fun p => cookieRelatedCond screenH p.2)).map Prod.fst

/-- CookieBannerDetector.detect from domains/chrome.py. -/
def cookieBannerDetect (nodes : List PNode) (screenW screenH : Int) :
    List PNode × List PNode :=
  let allCenters := nodes.map (fun n => bbox_to_center_tuple (node_bbox_from_raw n))
  let anchors := cookieAnchorIdxs nodes screenH
  let related := cookieRelatedIdxs nodes screenH
  if anchors.isEmpty || related.isEmpty then ([], nodes)
  else
    let relCenters := related.map (fun i => allCenters.getD i (0, 0))
    let minCx := (relCenters.map Prod.fst).foldl min ((relCenters.headD (0, 0)).1)
    let maxCx := (relCenters.map Prod.fst).foldl max ((relCenters.headD (0, 0)).1)
    let minCy := (relCenters.map Prod.snd).foldl min ((relCenters.headD (0, 0)).2)
    let maxCy := (relCenters.map Prod.snd).foldl max ((relCenters.headD (0, 0)).2)
    let marginX := ratioTrunc screenW 8 100
    let boxL := minCx - marginX
    let boxR := maxCx + marginX
    let boxT := minCy - 40
    let boxB := maxCy + 40
    let tagged := nodes.enum.map (fun p =>
      let (cx, cy) := allCenters.getD p.1 (0, 0)
      let isInBox := boxL ≤ cx && cx ≤ boxR && boxT ≤ cy && cy ≤ boxB
      let tag := pyLower p.2.tag
      let label := pyLower (nodeLabel p.2)
      let isTarget := related.contains p.1 || (tag = "push-button" && label = "close")
      (isInBox && isTarget, p.2))
    ((tagged.filter (·.1)).map (·.2), (tagged.filter (!·.1)).map (·.2))

/-- The top-anchor center list of FullscreenOverlayDetector. -/
def fullscreenTopCenters (nodes : List PNode) (screenW screenH : Int) : List Int :=
  nodes.filterMap (fun n =>
    if pyLower n.tag ≠ "push-button" then none
    else
      let label := pyLower (nodeLabel n)
      if label = "" then none
      else
        let c := bbox_to_center_tuple (node_bbox_from_raw n)
        if 20 * c.1 < screenW then none
        else if ratioTrunc screenH 8 100 ≤ c.2 && c.2 ≤ ratioTrunc screenH 55 100 &&
                (["close dialog", "close"].any (fun k => pyInStr k label)) &&
                10 * c.2 > screenH
        then some c.2 else none)

/-- The bottom-anchor center list of FullscreenOverlayDetector. -/
def fullscreenBotCenters (nodes : List PNode) (screenW screenH : Int) : List Int :=
  nodes.filterMap (fun n =>
    if pyLower n.tag ≠ "push-button" then none
    else
      let label := pyLower (nodeLabel n)
      if label = "" then none
      else
        let c := bbox_to_center_tuple (node_bbox_from_raw n)
        if 20 * c.1 < screenW then none
        else if c.2 ≥ ratioTrunc screenH 50 100 &&
                (["confirm my choices", "accept all", "save preferences"].any
                  (fun k => pyInStr k label))
        then some c.2 else none)

/-- FullscreenOverlayDetector.detect from domains/chrome.py. -/
def fullscreenOverlayDetect (nodes : List PNode) (screenW screenH : Int) :
    List PNode × List PNode :=
  let tops := fullscreenTopCenters nodes screenW screenH
  let bots := fullscreenBotCenters nodes screenW screenH
  if tops.isEmpty || bots.isEmpty then ([], nodes)
  else
    let topY := tops.foldl min (tops.headD 0) - 40
    let botY := bots.foldl max (bots.headD 0) + 40
    if 10 * (botY - topY) < 4 * screenH then ([], nodes)
    else
      let tagged := nodes.map (fun n =>
        let cy := (bbox_to_center_tuple (node_bbox_from_raw n)).2
        (topY ≤ cy && cy ≤ botY, n))
      ((tagged.filter (·.1)).map (·.2), (tagged.filter (!·.1)).map (·.2))

/-- The right-half menu candidates of FloatingMenuDetector. -/
def floatingMenuCandidates (nodes : List PNode) (screenW : Int) : List BBox :=
  nodes.filterMap (fun n =>
    let b := node_bbox_from_raw n
    if (pyLower n.tag = "menu" || pyLower n.role = "menu") && 5 * b.x > 2 * screenW
    then some b else none)

/-- FloatingMenuDetector.detect from domains/chrome.py. -/
def floatingMenuDetect (nodes : List PNode) (screenW screenH : Int) :
    List PNode × List PNode :=
  let candidates := floatingMenuCandidates nodes screenW
  match candidates with
  | [] => ([], nodes)
  | c0 :: cs =>
    let bestMenu := cs.foldl (fun best c => if c.w * c.h > best.w * best.h then c else best) c0
    let mx0 := bestMenu.x - 50
    let mx1 := screenW
    let my := nodes.foldl
      (fun (acc : Int × Int) n =>
        if pyLower n.tag = "menu-item" then
          let b := node_bbox_from_raw n
          if b.x > mx0 then (min acc.1 b.y, max acc.2 (b.y + b.h)) else acc
        else acc)
      (bestMenu.y, bestMenu.y + bestMenu.h)
    let tagged := nodes.map (fun n =>
      let c := bbox_to_center_tuple (node_bbox_from_raw n)
      (mx0 ≤ c.1 && c.1 ≤ mx1 && my.1 ≤ c.2 && c.2 ≤ my.2, n))
    ((tagged.filter (·.1)).map (·.2), (tagged.filter (!·.1)).map (·.2))

/-! ## domains/chrome.py : ChromeCompressor.get_semantic_regions

Python object identity (id(n), the mutation of the node dicts in place)
is modelled by pairing every node with its index in the input list: a
region holds (index, node) pairs, the node component carrying the retag
that the non-dry run writes into the dict. -/

/-- ChromeCompressor._estimate_toolbar_y. -/
def _estimate_toolbar_y (nodes : List PNode) (screenH : Int) : Int :=
  let anchorYs := nodes.filterMap (fun n =>
    let tag := pyLower n.tag
    let name := pyLower (pyStrip n.name)
    if (tag = "push-button" || tag = "button") &&
       BROWSER_UI_ANCHOR_BUTTONS.contains name then
      let b := node_bbox_from_raw n
      some (b.y + b.h.fdiv 2)
    else if (tag = "entry" || tag = "text" || tag = "text box") &&
            BROWSER_UI_ANCHOR_ENTRIES.contains name then
      let b := node_bbox_from_raw n
      some (b.y + b.h.fdiv 2)
    else none)
  if anchorYs ≠ [] then medianInt anchorYs
  else
    let toolbarKeywords :=
      ["back", "forward", "reload", "refresh", "home", "address", "search",
       "location", "extensions", "menu", "settings", "customize"]
    let candidatesY := nodes.filterMap (fun n =>
      let tag := pyLower n.tag
      if !(tag = "push-button" || tag = "entry" || tag = "toggle-button") then none
      else
        let b := node_bbox_from_raw n
        let cy := b.y + b.h.fdiv 2
        if 10 * cy > 3 * screenH then none
        else
          let name := pyLower (nodeLabel n)
          if toolbarKeywords.any (fun kw => pyInStr kw name) then some cy else none)
    if candidatesY ≠ [] then medianInt candidatesY
    else ratioTrunc screenH 15 100

/-- The window-control x threshold estimated at the head of
get_semantic_regions (candidates sorted by x descending, the anchor being
the first, i.e. the earliest node of maximal x). -/
def chromeWinControlsMinX (nodes : List PNode) (screenW : Int) : Int :=
  let candidates := nodes.filterMap (fun n =>
    if pyLower n.tag = "push-button" &&
       ["close", "minimize", "restore", "minimise", "maximize"].contains
         (pyLower (pyStrip n.name)) then
      let b := node_bbox_from_raw n
      if b.y < 60 then some b else none
    else none)
  match candidates with
  | [] => ratioTrunc screenW 80 100
  | c0 :: cs =>
    let anchor := cs.foldl (fun best c => if c.x > best.x then c else best) c0
    if 5 * anchor.x > 4 * screenW then anchor.x + anchor.w - 200 else screenW + 1

/-- The toolbar-anchor existence check run once before the main loop of
get_semantic_regions. -/
def chromeHasToolbarAnchors (nodes : List PNode) : Bool :=
  nodes.any (fun n =>
    let tag := pyLower n.tag
    let name := pyLower (pyStrip n.name)
    ((tag = "push-button" || tag = "button" || tag = "toggle-button") &&
     BROWSER_UI_ANCHOR_BUTTONS.contains name) ||
    ((tag = "entry" || tag = "text" || tag = "text box") &&
     BROWSER_UI_ANCHOR_ENTRIES.contains name))

/-- The four region keys of ChromeCompressor.get_semantic_regions. -/
inductive ChromeRegion
  | WINDOW_CONTROLS
  | BROWSER_TABS
  | BROWSER_UI
  | CONTENT
deriving Repr, DecidableEq

/-- The context the main classification loop reads (screen size, toolbar
center estimate, window-control threshold, anchor flag, dry-run flag). -/
structure ChromeCtx where
  w : Int
  h : Int
  toolbarCenterY : Int
  winControlsMinX : Int
  hasToolbarAnchors : Bool
  dryRun : Bool
deriving Repr

/-- The in-place retag the non-dry run performs. -/
def retag (dry : Bool) (t : String) (n : PNode) : PNode :=
  if dry then n else { n with tag := t }

/-- The anchorless toolbar fallback (step 2-2 of the main loop of
get_semantic_regions): the outer some means the continue fired (the node
is consumed), its content being the BROWSER_UI entry or a drop. -/
def chromeToolbarFallback (ctx : ChromeCtx) (n : PNode) : Option (Option (ChromeRegion × PNode)) :=
  if ctx.hasToolbarAnchors then none
  else
    let tag := pyLower n.tag
    let role := pyLower n.role
    let lowerName := pyLower (pyStrip n.name)
    let b := node_bbox_from_raw n
    let cy := (bbox_to_center_tuple b).2
    let diffY := (cy - ctx.toolbarCenterY).natAbs
    let area0 : Bool := diffY ≤ (ratioTrunc ctx.h 3 100).toNat
    let area1 : Bool :=
      if pyInStr "ctrl+" lowerName then false
      else if 5 * b.x > 4 * ctx.w then
        if diffY > 20 then false
        else if 25 * cy > 3 * ctx.h then false
        else area0
      else area0
    let area : Bool :=
      if pyInStr "menu" tag || pyInStr "menu" role then false else area1
    if area then
      some (if tag = "push-button" || tag = "entry" || tag = "combo-box" ||
               tag = "menu-item" || tag = "toggle-button" then
              some (ChromeRegion.BROWSER_UI,
                retag ctx.dryRun
                  (if tag = "entry" then "browser-entry"
                   else if tag = "combo-box" then "browser-combo"
                   else "browser-button") n)
            else none)
    else none

/-- The Priority-4 content step of the main loop of get_semantic_regions
(label filters and the heading / result retags). -/
def chromeContentStep (ctx : ChromeCtx) (n : PNode) : Option (ChromeRegion × PNode) :=
  let tag := pyLower n.tag
  let role := pyLower n.role
  let name := pyStrip n.name
  let text := pyStrip n.text
  let label := if name ≠ "" then name else text
  if label = "" then none
  else if (match label.data with | [c] => !c.isAlphanum | _ => false) then none
  else if label = "ADVERTISEMENT" then none
  else
    let n1 := if tag = "static" && role = "heading" then retag ctx.dryRun "heading" n else n
    let n2 := if tag = "list-item" && pyInStr "result" (pyLower label) then
                retag ctx.dryRun "static" n1
              else n1
    some (ChromeRegion.CONTENT, n2)

/-- One iteration of the main loop of get_semantic_regions: the region
the node is appended to together with the node as mutated, or none when
the loop drops the node (empty or trivial label, advertisement, or a
toolbar-area node of a non-interactive tag in the anchorless fallback). -/
def chromeClassify (ctx : ChromeCtx) (n : PNode) : Option (ChromeRegion × PNode) :=
  let tag := pyLower n.tag
  let role := pyLower n.role
  let b := node_bbox_from_raw n
  let cy := (bbox_to_center_tuple b).2
  let lowerName := pyLower (pyStrip n.name)
  if 25 * b.y < 3 * ctx.h && tag = "push-button" &&
     WINDOW_CONTROL_NAMES.contains lowerName && b.x ≥ ctx.winControlsMinX then
    some (ChromeRegion.WINDOW_CONTROLS, retag ctx.dryRun "window-button" n)
  else if (tag = "push-button" || tag = "button" || tag = "toggle-button") &&
          BROWSER_UI_ANCHOR_BUTTONS.contains lowerName then
    some (ChromeRegion.BROWSER_UI, retag ctx.dryRun "browser-button" n)
  else if (tag = "entry" || tag = "text box" || tag = "text") &&
          BROWSER_UI_ANCHOR_ENTRIES.contains lowerName then
    some (ChromeRegion.BROWSER_UI, retag ctx.dryRun "browser-entry" n)
  else
    match chromeToolbarFallback ctx n with
    | some r => r
    | none =>
      if BROWSER_TAB_ANCHORS.contains lowerName &&
         (42 ≤ cy && cy ≤ ctx.toolbarCenterY - 25) && b.x < ctx.winControlsMinX then
        some (ChromeRegion.BROWSER_TABS,
          retag ctx.dryRun
            (if pyInStr "tab" role || tag = "page tab" then "browser-tab"
             else "browser-tab-button") n)
      else chromeContentStep ctx n

/-- TAG_PRIORITY of _dedup_overlapping_content (smaller wins). -/
def TAG_PRIORITY : List (String × Int) :=
  [("entry", 0), ("combo-box", 0), ("check-box", 0), ("radio-button", 0),
   ("toggle-button", 0), ("spin-button", 0), ("slider", 0),
   ("push-button", 1), ("menu-item", 2), ("link", 3), ("heading", 4),
   ("image", 5), ("label", 6), ("static", 7), ("section", 8), ("paragraph", 8)]

/-- TAG_PRIORITY.get(tag, 100). -/
def tagPriority (t : String) : Int :=
  ((TAG_PRIORITY.find? (fun p => p.1 == t)).map Prod.snd).getD 100

/-- Keep the first occurrence of every key, in order (the insertion
order of the Python defaultdict keys; the drop set is independent of the
group order, the groups being disjoint). -/
def firstDedup [DecidableEq α] (l : List α) : List α :=
  l.foldl (fun acc k => if acc.contains k then acc else acc ++ [k]) []

/-- The grouping key of _dedup_overlapping_content: enclosing block
header (none for parser-produced nodes) and lowered label. -/
abbrev DedupKey := Option String × String

/-- The grouping entries of _dedup_overlapping_content: for every
labelled non-header node, its key, its position in the content list and
its center. -/
def dedupEntries (content : List (Nat × PNode)) : List (DedupKey × Nat × Int × Int) :=
  (content.enum.foldl
    (fun (acc : Option String × List (DedupKey × Nat × Int × Int)) p =>
      let (curBlock, entries) := acc
      let n := p.2.2
      if n.kind = some "block_header" then (some (pyStrip n.name), entries)
      else
        let name := pyStrip n.name
        let text := pyStrip n.text
        let label := if name ≠ "" then name else text
        if label = "" then (curBlock, entries)
        else
          let c := bbox_to_center_tuple (node_bbox_from_raw n)
          (curBlock, entries ++ [((curBlock, pyLower label), p.1, c.1, c.2)]))
    (none, [])).2

/-- The row clustering of _dedup_overlapping_content: after the stable
(cy, cx) sort, consecutive items whose cy differs by at most 20 from the
previously clustered item share a cluster. -/
def clusterRows (l : List (Nat × Int × Int)) : List (List (Nat × Int × Int)) :=
  match l with
  | [] => []
  | e :: rest =>
    let step := rest.foldl
      (fun (acc : List (List (Nat × Int × Int)) × List (Nat × Int × Int) × Int) it =>
        let (clusters, curRev, lastCy) := acc
        if (it.2.2 - lastCy).natAbs ≤ 20 then (clusters, it :: curRev, it.2.2)
        else (clusters ++ [curRev.reverse], [it], it.2.2))
      ([], [e], e.2.2)
    step.1 ++ [step.2.1.reverse]

/-- The drop positions one cluster contributes: everything except the
first member of minimal tag priority. -/
def clusterDrops (content : List (Nat × PNode)) (cluster : List (Nat × Int × Int)) :
    List Nat :=
  if cluster.length ≤ 1 then []
  else
    let best := cluster.foldl
      (fun (acc : Option (Nat × Int)) it =>
        let tag := pyLower ((content.getD it.1 (0, default)).2.tag)
        let score := tagPriority tag
        match acc with
        | none => some (it.1, score)
        | some (bi, bs) => if score < bs then some (it.1, score) else some (bi, bs))
      none
    match best with
    | none => []
    | some (bi, _) => (cluster.map (·.1)).filter (· ≠ bi)

/-- ChromeCompressor._dedup_overlapping_content, on (index, node) pairs;
positions inside the content list model the enumerate() of the source. -/
def _dedup_overlapping_content (content : List (Nat × PNode)) : List (Nat × PNode) :=
  let entries := dedupEntries content
  let keys := firstDedup (entries.map Prod.fst)
  let toDrop := keys.foldl
    (fun acc k =>
      let items := (entries.filter (fun e => e.1 = k)).map Prod.snd
      if items.length ≤ 1 then acc
      else
        let sorted := sortByStable
          (fun a b => a.2.2 < b.2.2 || (a.2.2 = b.2.2 && a.2.1 ≤ b.2.1)) items
        acc ++ (clusterRows sorted).foldl (fun a c => a ++ clusterDrops content c) [])
    ([] : List Nat)
  (content.enum.filter (fun p => !toDrop.contains p.1)).map Prod.snd

/-- The four region lists of ChromeCompressor.get_semantic_regions. -/
structure ChromeRegions where
  windowControls : List (Nat × PNode)
  browserTabs : List (Nat × PNode)
  browserUI : List (Nat × PNode)
  content : List (Nat × PNode)
deriving Repr

/-- Select one region from the classified node list. -/
def chromeRegionSelect (cls : List (Nat × Option (ChromeRegion × PNode)))
    (r : ChromeRegion) : List (Nat × PNode) :=
  cls.filterMap (fun p =>
    match p.2 with
    | some (r', m) => if r' = r then some (p.1, m) else none
    | none => none)

/-- The context get_semantic_regions computes before its main loop. -/
def chromeCtxOf (nodes : List PNode) (w h : Int) (dryRun : Bool) : ChromeCtx :=
  { w := w, h := h,
    toolbarCenterY := _estimate_toolbar_y nodes h,
    winControlsMinX := chromeWinControlsMinX nodes w,
    hasToolbarAnchors := chromeHasToolbarAnchors nodes,
    dryRun := dryRun }

/-- ChromeCompressor.get_semantic_regions from domains/chrome.py. -/
def get_semantic_regions (nodes : List PNode) (w h : Int) (dryRun : Bool) :
    ChromeRegions :=
  let ctx : ChromeCtx := chromeCtxOf nodes w h dryRun
  let cls := nodes.enum.map (fun p => (p.1, chromeClassify ctx p.2))
  let content := chromeRegionSelect cls ChromeRegion.CONTENT
  { windowControls := chromeRegionSelect cls ChromeRegion.WINDOW_CONTROLS,
    browserTabs := chromeRegionSelect cls ChromeRegion.BROWSER_TABS,
    browserUI := chromeRegionSelect cls ChromeRegion.BROWSER_UI,
    content := if content.isEmpty then content else _dedup_overlapping_content content }

/-- Region lookup by key. -/
def ChromeRegions.region (R : ChromeRegions) : ChromeRegion → List (Nat × PNode)
  | ChromeRegion.WINDOW_CONTROLS => R.windowControls
  | ChromeRegion.BROWSER_TABS => R.browserTabs
  | ChromeRegion.BROWSER_UI => R.browserUI
  | ChromeRegion.CONTENT => R.content

/-! ## domains/os.py : OSCompressor window detection and modal split

Python id() bookkeeping is modelled by pairing nodes with their input
index; Python == on node dicts is value equality of PNode.  Centers such
as y + h/2 are carried doubled (2y + h) so the half-pixel values stay in
Int; comparisons double the other side. -/

/-- An input node with its identity index. -/
abbrev INode := Nat × PNode

/-- Doubled horizontal center 2x + w of a node's bbox. -/
def cx2 (n : PNode) : Int :=
  let b := node_bbox_from_raw n
  2 * b.x + b.w

/-- Doubled vertical center 2y + h of a node's bbox. -/
def cy2 (n : PNode) : Int :=
  let b := node_bbox_from_raw n
  2 * b.y + b.h

/-- OSCompressor.MODAL_KEYWORDS. -/
def MODAL_KEYWORDS : List String :=
  ["authentication", "password", "required", "authenticate", "cancel"]

/-- OSCompressor.SIDEBAR_KEYWORDS_SPECIFIC. -/
def SIDEBAR_KEYWORDS_SPECIFIC : List String := ["Recent", "Starred", "Other Locations"]

/-- OSCompressor.SIDEBAR_KEYWORDS_GENERIC. -/
def SIDEBAR_KEYWORDS_GENERIC : List String :=
  ["Home", "Desktop", "Documents", "Downloads", "Music", "Pictures",
   "Videos", "Trash", "Network", "Bluetooth", "Background", "Appearance",
   "Notifications", "Search", "Multitasking", "Applications", "Privacy",
   "Online Accounts", "Sharing", "Sound", "Power", "Displays",
   "Mouse & Touchpad", "Keyboard", "Printers", "Removable Media", "Color",
   "Region & Language", "Accessibility", "Users", "Date & Time", "About"]

/-- OSCompressor._detect_sidebar_region: the x-clustered run of sidebar
keyword nodes, widened, or none.  Cluster membership compares against the
first element of the current cluster; the best cluster is the strictly
longest seen first. -/
def _detect_sidebar_region (nodes : List PNode) : Option BBox :=
  let allKw := SIDEBAR_KEYWORDS_SPECIFIC ++ SIDEBAR_KEYWORDS_GENERIC
  let candidates := nodes.filter (fun n => allKw.contains (pyStrip (nameOrText n)))
  match sortByStable (fun a b => (node_bbox_from_raw a).x ≤ (node_bbox_from_raw b).x)
      candidates with
  | [] => none
  | c0 :: cs =>
    let step := cs.foldl
      (fun (acc : List PNode × List PNode) n =>
        let (best, cur) := acc
        match cur with
        | [] => (best, [n])
        | prev :: _ =>
          if ((node_bbox_from_raw n).x - (node_bbox_from_raw prev).x).natAbs < 30 then
            (best, cur ++ [n])
          else if cur.length > best.length then (cur, [n])
          else (best, [n]))
      ([], [c0])
    let bestCluster := if step.2.length > step.1.length then step.2 else step.1
    if bestCluster.isEmpty then none
    else
      let names := bestCluster.map (fun n => pyStrip (nameOrText n))
      let hasSpecific := names.any (fun s => SIDEBAR_KEYWORDS_SPECIFIC.contains s)
      if (hasSpecific && bestCluster.length ≥ 2) || bestCluster.length ≥ 4 then
        let boxes := bestCluster.map node_bbox_from_raw
        match boxes with
        | [] => none
        | b0 :: bs =>
          let minX := bs.foldl (fun a b => min a b.x) b0.x
          let minY := bs.foldl (fun a b => min a b.y) b0.y
          let maxX := bs.foldl (fun a b => max a (b.x + b.w)) (b0.x + b0.w)
          let maxY := bs.foldl (fun a b => max a (b.y + b.h)) (b0.y + b0.h)
          some { x := minX - 60, y := minY - 20,
                 w := (maxX - minX) + 80, h := (maxY - minY) + 40 }
      else none

/-- One detected window of _detect_and_classify_nodes. -/
structure OsWindow where
  title : String
  limitMaxX : Int
  limitMinX : Int
  headerY : Int
  headerBottom : Int
  header : List INode
  content : List INode
deriving Repr

/-- Value membership of a node in a header list (Python n in header_nodes,
dict equality). -/
def valueMemN (n : PNode) (l : List INode) : Bool := l.any (fun p => p.2 = n)

/-- Step 0 of _detect_and_classify_nodes: the dimming-layer search
(a panel-like node covering over 30 percent of the assumed 1920x1080
screen with fewer than 3 characters of text). -/
def osFindDimLayer (inodes : List INode) : Option INode :=
  inodes.find? (fun p =>
    let b := node_bbox_from_raw p.2
    10 * (b.w * b.h) > 3 * (1920 * 1080) &&
    (pyStrip (if p.2.text ≠ "" then p.2.text else p.2.name)).length < 3 &&
    ["panel", "frame", "image", "static", "text"].contains (pyLower p.2.tag))

/-- Step 0 of _detect_and_classify_nodes, continued: with a dimming layer
present, if any other node's stripped name-or-text mentions a modal
keyword, every node whose center lies within the 500x400 pixel radius of
the first node whose raw name mentions a keyword is collected as an
early-confirmed modal node, and those nodes plus the dimming layer are
marked used.  Returns the collected nodes and the used-id list. -/
def osEarlyModalExtract (inodes : List INode) : List INode × List Nat :=
  match osFindDimLayer inodes with
  | none => ([], [])
  | some (di, dn) =>
    let hasModalKeyword := inodes.any (fun p =>
      p.2 ≠ dn &&
      (let name := pyLower (pyStrip (nameOrText p.2))
       MODAL_KEYWORDS.any (fun k => pyInStr k name)))
    if hasModalKeyword then
      let triggers := inodes.filter (fun p =>
        MODAL_KEYWORDS.any (fun k => pyInStr k (pyLower p.2.name)))
      match triggers with
      | [] => ([], [])
      | (_, tn) :: _ =>
        let refCx2 := cx2 tn
        let refCy2 := cy2 tn
        let collected := inodes.filter (fun p =>
          (cx2 p.2 - refCx2).natAbs < 1000 && (cy2 p.2 - refCy2).natAbs < 800)
        (collected, collected.map Prod.fst ++ [di])
    else ([], [])

/-- The best-title search shared by the close-button and menu-row window
detectors: the label node left of the reference, on the same row, at the
smallest horizontal gap (the first one on ties). -/
def osBestTitle (inodes : List INode) (skip : INode → Bool)
    (rowCy2 refX : Int) (rowTol2 : Int) : Option INode :=
  (inodes.foldl
    (fun (acc : Option (Int × INode)) p =>
      if skip p then acc
      else
        let nb := node_bbox_from_raw p.2
        if (cy2 p.2 - rowCy2).natAbs > rowTol2.toNat || nb.x ≥ refX then acc
        else if pyLower p.2.tag = "label" && pyStrip (nameOrText p.2) ≠ "" then
          let dist := refX - (nb.x + nb.w)
          match acc with
          | none => some (dist, p)
          | some (d, q) => if dist < d then some (dist, p) else some (d, q)
        else acc)
    none).map Prod.snd

/-- Step 2 of _detect_and_classify_nodes: one close-button window. -/
def osCloseButtonWindow (inodes : List INode) (sidebar : Option BBox)
    (used : List Nat) (cb : INode) : List Nat × OsWindow :=
  let cBox := node_bbox_from_raw cb.2
  let cCy2 := cy2 cb.2
  let cRight := cBox.x + cBox.w
  let bestTitle := osBestTitle inodes (fun p => p.2 = cb.2) cCy2 cBox.x 40
  let header0 := [cb] ++ (match bestTitle with | some bt => [bt] | none => [])
  let header := inodes.foldl
    (fun hs p =>
      if used.contains p.1 || valueMemN p.2 hs then hs
      else
        let nb := node_bbox_from_raw p.2
        if (cy2 p.2 - cCy2).natAbs ≤ 30 && nb.x < cRight && nb.x > cBox.x - 600 &&
           ["push-button", "toggle-button", "label", "icon"].contains (pyLower p.2.tag)
        then hs ++ [p] else hs)
    header0
  let minX0 := (header.map (fun p => (node_bbox_from_raw p.2).x)).foldl min
    ((node_bbox_from_raw cb.2).x)
  let minX :=
    match sidebar with
    | some sb => if (cBox.y - sb.y).natAbs < 100 && minX0 > sb.x then sb.x else minX0
    | none => minX0
  let terminals := inodes.filter (fun p =>
    pyLower p.2.tag = "terminal" && !used.contains p.1)
  let contentUsed := terminals.foldl
    (fun (acc : List INode × List Nat) p =>
      let tb := node_bbox_from_raw p.2
      if tb.y ≥ cBox.y && tb.y < cBox.y + 200 && tb.x < cRight && tb.x + tb.w > minX
      then (acc.1 ++ [p], acc.2 ++ [p.1]) else acc)
    ([], used)
  let title := match bestTitle with
    | some bt => pyStrip bt.2.name
    | none => "Unknown Window"
  (contentUsed.2 ++ header.map Prod.fst,
   { title := title, limitMaxX := cRight, limitMinX := minX - 30,
     headerY := cBox.y, headerBottom := cBox.y + cBox.h,
     header := header, content := contentUsed.1 })

/-- Step 3 of _detect_and_classify_nodes: grouping of Menu buttons into
rows by doubled vertical center (within 10 pixels of the row opener). -/
def osMenuRows (menuButtons : List INode) : List (List INode) :=
  (menuButtons.foldl
    (fun (acc : List Nat × List (List INode)) p =>
      let (processed, rows) := acc
      if processed.contains p.1 then acc
      else
        let baseCy2 := cy2 p.2
        let step := menuButtons.foldl
          (fun (acc2 : List Nat × List INode) q =>
            if acc2.1.contains q.1 then acc2
            else if (cy2 q.2 - baseCy2).natAbs < 20 then (acc2.1 ++ [q.1], acc2.2 ++ [q])
            else acc2)
          (processed ++ [p.1], [p])
        (step.1, rows ++ [step.2]))
    ([], [])).2

/-- Step 3 of _detect_and_classify_nodes: one Menu-row window (for a row
of at least three Menu buttons). -/
def osMenuRowWindow (inodes : List INode) (sidebar : Option BBox)
    (used : List Nat) (row : List INode) : List Nat × Option OsWindow :=
  let rowSorted := sortByStable
    (fun a b => (node_bbox_from_raw a.2).x ≤ (node_bbox_from_raw b.2).x) row
  match rowSorted.getLast?, rowSorted.head? with
  | some rm, some l0 =>
    let rBox := node_bbox_from_raw rm.2
    let limitMax := rBox.x + rBox.w
    let lCy2 := cy2 l0.2
    let lX := (node_bbox_from_raw l0.2).x
    let bestTitle := osBestTitle inodes
      (fun p => used.contains p.1 || valueMemN p.2 rowSorted) lCy2 lX 30
    let header := (match bestTitle with | some bt => [bt] | none => []) ++ rowSorted
    let minX0 := (header.map (fun p => (node_bbox_from_raw p.2).x)).foldl min lX
    let minX :=
      match sidebar with
      | some sb => if (rBox.y - sb.y).natAbs < 100 && minX0 > sb.x then sb.x else minX0
      | none => minX0
    let title := match bestTitle with
      | some bt => pyStrip bt.2.name
      | none => "Unknown Window (Menu)"
    (used ++ header.map Prod.fst,
     some { title := title, limitMaxX := limitMax, limitMinX := minX - 30,
            headerY := rBox.y, headerBottom := rBox.y + rBox.h,
            header := header, content := [] })
  | _, _ => (used, none)

/-- Step 3.5 of _detect_and_classify_nodes: the Software-Center tab-row
window (Explore / Installed / Updates radio buttons plus a Search toggle
to their left). -/
def osSwTabsWindow (inodes : List INode) (used : List Nat)
    (swTabs : List INode) : List Nat × Option OsWindow :=
  let sorted := sortByStable
    (fun a b => (node_bbox_from_raw a.2).x ≤ (node_bbox_from_raw b.2).x) swTabs
  match sorted.head?, sorted.getLast? with
  | some t0, some tl =>
    let b0 := node_bbox_from_raw t0.2
    let bl := node_bbox_from_raw tl.2
    let headerY := b0.y
    let headerBottom := headerY + b0.h
    let maxX := bl.x + bl.w
    let step := inodes.foldl
      (fun (acc : List INode × Int) p =>
        if used.contains p.1 then acc
        else if p.2.name = "Search" then
          let b := node_bbox_from_raw p.2
          if (b.y - headerY).natAbs < 20 && b.x < acc.2 then
            (acc.1 ++ [p], min acc.2 b.x)
          else acc
        else acc)
      (sorted, b0.x)
    (used ++ step.1.map Prod.fst,
     some { title := "Ubuntu Software", limitMaxX := maxX + 100,
            limitMinX := step.2 - 50, headerY := headerY,
            headerBottom := headerBottom, header := step.1, content := [] })
  | _, _ => (used, none)

/-- Step 3.6 of _detect_and_classify_nodes: the Software-Center details
window (Source / Go back anchor in the top band, plus every node on the
anchor's row). -/
def osDetailsWindow (inodes : List INode) (used : List Nat) :
    List Nat × Option OsWindow :=
  let anchor :=
    match inodes.find? (fun p => p.2.name = "Source" && !used.contains p.1) with
    | some a => some a
    | none => inodes.find? (fun p =>
        (p.2.name = "Go back" || p.2.name = "Back") && !used.contains p.1)
  match anchor with
  | none => (used, none)
  | some (ai, an) =>
    let sb := node_bbox_from_raw an
    if sb.y < 200 then
      let headerY := sb.y
      let header := inodes.foldl
        (fun hs p =>
          if used.contains p.1 || valueMemN p.2 hs then hs
          else
            let nb := node_bbox_from_raw p.2
            if (nb.y - headerY).natAbs < 20 then hs ++ [p] else hs)
        [(ai, an)]
      (used ++ header.map Prod.fst,
       some { title := "Ubuntu Software", limitMaxX := 3000, limitMinX := 0,
              headerY := headerY, headerBottom := headerY + sb.h,
              header := header, content := [] })
    else (used, none)

/-- Step 5 of _detect_and_classify_nodes: the window a leftover node is
assigned to, by the score dy + 5 * horizontal penalty (doubled), the
first window of minimal score winning. -/
def osAssignWindow (windows : List OsWindow) (n : PNode) : Option Nat :=
  (windows.enum.foldl
    (fun (acc : Option (Int × Nat)) wp =>
      let w := wp.2
      let ncx2 := cx2 n
      let ncy2 := cy2 n
      if ncx2 > 2 * (w.limitMaxX + 50) then acc
      else if ncx2 < 2 * (w.limitMinX - 50) then acc
      else
        let dy2 := ncy2 - 2 * w.headerBottom
        if dy2 < -20 then acc
        else
          let pen2 :=
            if ncx2 < 2 * w.limitMinX then 2 * w.limitMinX - ncx2
            else if ncx2 > 2 * w.limitMaxX then ncx2 - 2 * w.limitMaxX
            else 0
          let score2 := dy2 + pen2 * 5
          match acc with
          | none => some (score2, wp.1)
          | some (s, i) => if score2 < s then some (score2, wp.1) else some (s, i))
    none).map Prod.snd

/-- The classification core of OSCompressor._detect_and_classify_nodes:
everything except the final text rendering of step 7, which reads the
windows and background but does not change the classification.  Returns
(detected windows, background orphans, returned modal set).  Note the
early-confirmed modal nodes of step 0 are marked used but the modal
accumulator is re-initialised to the empty list at step 6 before the
orphan test, exactly as the source does. -/
def _detect_and_classify_modal (allNodes : List PNode) :
    List OsWindow × List INode × List INode :=
  match allNodes with
  | [] => ([], [], [])
  | _ :: _ =>
    let inodes := allNodes.enum
    -- 0. early modal extraction (collected nodes later discarded)
    let early := osEarlyModalExtract inodes
    let used0 := early.2
    -- 1. sidebar region
    let sidebar := _detect_sidebar_region allNodes
    -- 2. close-button windows
    let closeButtons := inodes.filter (fun p =>
      (p.2.tag = "push-button" || p.2.tag = "toggle-button") && p.2.name = "Close")
    let step2 := closeButtons.foldl
      (fun (acc : List Nat × List OsWindow) cb =>
        if acc.1.contains cb.1 then acc
        else
          let r := osCloseButtonWindow inodes sidebar acc.1 cb
          (r.1, acc.2 ++ [r.2]))
      (used0, [])
    -- 3. Menu-row windows
    let menuButtons := inodes.filter (fun p =>
      (p.2.tag = "push-button" || p.2.tag = "toggle-button") && p.2.name = "Menu" &&
      !step2.1.contains p.1)
    let step3 := (osMenuRows menuButtons).foldl
      (fun (acc : List Nat × List OsWindow) row =>
        if row.length ≥ 3 then
          match osMenuRowWindow inodes sidebar acc.1 row with
          | (u, some w) => (u, acc.2 ++ [w])
          | (u, none) => (u, acc.2)
        else acc)
      step2
    -- 3.5 Software-Center tabs
    let swTabs := inodes.filter (fun p =>
      p.2.tag = "radio-button" &&
      ["Explore", "Installed", "Updates"].contains p.2.name &&
      !step3.1.contains p.1)
    let step35 :=
      if swTabs.length ≥ 2 then
        match osSwTabsWindow inodes step3.1 swTabs with
        | (u, some w) => (u, step3.2 ++ [w])
        | (u, none) => (u, step3.2)
      else step3
    -- 3.6 Software-Center details
    let step36 :=
      match osDetailsWindow inodes step35.1 with
      | (u, some w) => (u, step35.2 ++ [w])
      | (u, none) => (u, step35.2)
    -- 4. terminal fallback
    let step4 := inodes.foldl
      (fun (acc : List Nat × List OsWindow) p =>
        if pyLower p.2.tag = "terminal" && !acc.1.contains p.1 then
          let tb := node_bbox_from_raw p.2
          let isCovered := acc.2.any (fun w => w.content.any (fun c => c.1 = p.1))
          if isCovered then acc
          else
            (acc.1 ++ [p.1], acc.2 ++
              [{ title := "Terminal", limitMaxX := tb.x + tb.w, limitMinX := tb.x,
                 headerY := tb.y - 40, headerBottom := tb.y,
                 header := [], content := [p] }])
        else acc)
      step36
    -- 5. node assignment by vertical distance
    let step5 := inodes.foldl
      (fun (acc : List OsWindow × List INode) p =>
        if step4.1.contains p.1 then acc
        else
          match osAssignWindow acc.1 p.2 with
          | some wi =>
            (match acc.1.get? wi with
             | some w => (acc.1.set wi { w with content := w.content ++ [p] }, acc.2)
             | none => acc)
          | none => (acc.1, acc.2 ++ [p]))
      (step4.2, [])
    -- 6. orphan modal test (true_modal_nodes re-initialised to [] here,
    --    discarding the step-0 collection)
    let orphans := step5.2
    if orphans.isEmpty then (step5.1, [], [])
    else
      let hasDim := orphans.any (fun p =>
        let b := node_bbox_from_raw p.2
        b.w * b.h > 500000 && (pyStrip p.2.text).length < 3)
      let isLikelyModal := hasDim || orphans.any (fun p => p.2.role = "dialog")
      if isLikelyModal then (step5.1, [], orphans) else (step5.1, orphans, [])

/-! ## Spec-side definitions and concrete inputs for the claims -/

/-- From the spec's words (for comparison with the code): the winner is
the argmax over domain scores, a fixed generic domain scoring exactly
zero is the universal fallback, and a tie between positive-scoring
domains goes to whichever tied domain is evaluated last in the fixed
order. -/
def specTieToLastWinner (scores : List (String × Int)) : String :=
  (scores.foldl (fun best p => if p.2 > 0 && p.2 ≥ best.2 then p else best)
    ("generic", 0)).1

/-- Line predicates of the round-trip claim: a blank row. -/
def blankLine (line : String) : Bool := pyStrip line = ""

/-- A header row (sentinel prefixes, checked on the stripped line). -/
def headerLine (line : String) : Bool := isHeaderStripped (pyStrip line)

/-- A row the parser keeps (non-blank, non-header). -/
def keepLine (line : String) : Bool := !blankLine line && !headerLine line

/-- The first column of a row, stripped (the parser's tag candidate). -/
def firstCol (line : String) : String := pyStrip ((pySplitTab line).headD "")

/-- A well-formed row: at least 5 tab-separated columns and a known tag. -/
def wellFormedLine (line : String) : Bool :=
  (pySplitTab line).length ≥ 5 && knownTag (firstCol line)

/-- The node a well-formed row becomes. -/
def lineNode (line : String) : PNode :=
  wellFormedNode line (pySplitTab line) (firstCol line)

/-- A string with no line-break characters (one physical row). -/
def singleRow (line : String) : Bool := line.data.all (fun c => !isLineBreakChar c)

/-- C1 counterexample input: one element with an empty label.  The chrome
region classifier drops it (the Priority-4 continue), so the union of the
returned regions is empty. -/
def cexC1 : List PNode := [{ tag := "static" }]

/-- C1 witness input: one element with an ordinary label that lands in
CONTENT. -/
def witC1 : List PNode :=
  [{ tag := "link", name := "Some link",
     raw := "link\tSome link\t\t\t\t(400, 400)\t(100, 20)\t" }]

/-- C2 counterexample input: chrome and libreoffice_impress tie at 20
(the impress window title on one element; the chrome window title plus
five links on the others), and every other domain scores 0. -/
def cexC2 : List PNode :=
  [{ tag := "label", name := "LibreOffice Impress" },
   { tag := "label", name := "Google Chrome" },
   { tag := "link", name := "a" }, { tag := "link", name := "b" },
   { tag := "link", name := "c" }, { tag := "link", name := "d" },
   { tag := "link", name := "e" }]

/-- The score table detect_domain_and_scores builds on cexC2. -/
def cexC2Scores : List (String × Int) :=
  [("gimp", 0), ("chrome", 20), ("vsc", 0), ("libreoffice_calc", 0),
   ("libreoffice_impress", 20), ("libreoffice_writer", 0), ("os", 0)]

/-- C3 failing input: four left-edge launcher-shaped buttons carrying
names from the OS-application allow-list (as bbox geometry, the only
geometry _has_os_dock reads), with no OS landmark anywhere. -/
def c3dock : List PNode :=
  [{ tag := "push-button", name := "Files", bboxX := some 0, bboxY := some 100,
     bboxW := some 64, bboxH := some 64 },
   { tag := "push-button", name := "Trash", bboxX := some 0, bboxY := some 200,
     bboxW := some 64, bboxH := some 64 },
   { tag := "push-button", name := "Help", bboxX := some 0, bboxY := some 300,
     bboxW := some 64, bboxH := some 64 },
   { tag := "push-button", name := "Terminal", bboxX := some 0, bboxY := some 400,
     bboxW := some 64, bboxH := some 64 }]

/-- C4 failing input: a full-screen near-text-free image (the dimming
layer), a label matching the modal keyword vocabulary, and a button
within the pixel radius of the keyword match. -/
def c4nodes : List PNode :=
  [{ tag := "image", raw := "image\t\t\t\t\t(0, 0)\t(1920, 1080)\t" },
   { tag := "label", name := "Authentication Required",
     raw := "label\tAuthentication Required\t\t\t\t(800, 400)\t(320, 40)\t" },
   { tag := "push-button", name := "OK",
     raw := "push-button\tOK\t\t\t\t(900, 500)\t(80, 30)\t" }]

/-- C5 witness input: Image and Layer menus in the menubar band, the
window title, File and Edit menus and a right-dock element, but no
Colors menu. -/
def witC5 : List PNode :=
  [{ tag := "menu", name := "Image", raw := "menu\tImage\t\t\t\t(100, 50)\t(40, 20)\t" },
   { tag := "menu", name := "Layer", raw := "menu\tLayer\t\t\t\t(150, 50)\t(40, 20)\t" },
   { tag := "menu", name := "File", raw := "menu\tFile\t\t\t\t(10, 60)\t(40, 20)\t" },
   { tag := "menu", name := "Edit", raw := "menu\tEdit\t\t\t\t(50, 60)\t(40, 20)\t" },
   { tag := "label", name := "GNU Image Manipulation Program" },
   { tag := "label", name := "dock", raw := "label\tdock\t\t\t\t(1700, 300)\t(40, 20)\t" }]

/-- C6 witness input: one element matching no detector's anchors. -/
def witC6 : List PNode := [{ tag := "static", name := "hello" }]

/-- C7 witness input: two well-formed rows and one header row. -/
def witC7 : String :=
  "tag\tname\ttext\npush-button\tOK\t\t\t\t(100,100)\t(50,20)\t\nlink\tHome\tx\ty\tz"

/-- C8 witness rows: a pending paragraph row and the row completing its
coordinates. -/
def witC8a : String := "paragraph\tNote"

/-- Second row of the C8 witness. -/
def witC8b : String := "body\tmore\t\t(10, 200)\t(300, 40)"

/-- C10 witness input: one node with positive extents. -/
def witC10 : PNode :=
  { tag := "static", raw := "static\t\t\t\t\t(100, 200)\t(50, 60)\t" }

/-! ## Theorems -/

/-- C3: on an element list with no OS landmark but four left-edge
launcher-shaped allow-list buttons, _score_os does not award the flat
fallback score of 5: it raises NameError, because the allow-list
OS_DOCK_APP_NAMES is only ever assigned inside unreachable dead code of
_score_libreoffice_writer and so does not exist at module level.  The
direct score is 0, the fallback path is entered, _has_os_dock reaches
the membership test on the first launcher-shaped button, and the
exception propagates through detect_domain_and_scores. -/
theorem C3_score_os_dock_raises :
    osDirectScore c3dock = 0 ∧
    _score_os c3dock =
      Except.error "NameError: name OS_DOCK_APP_NAMES is not defined" ∧
    detect_domain_and_scores c3dock =
      Except.error "NameError: name OS_DOCK_APP_NAMES is not defined" :=
  ⟨rfl, rfl, rfl⟩

/-- C4: on an input with a dimming layer (node 0), a keyword-matching
label (node 1) and a nearby button (node 2), step 0 of
_detect_and_classify_nodes collects all three nodes as early-confirmed
modal and marks them used, but the returned modal set is empty: the
modal accumulator is re-initialised to the empty list at step 6, so the
collected nodes are neither returned as modal nor assigned to any window
nor kept as background — they are silently lost. -/
theorem C4_dim_layer_modal_lost :
    (osFindDimLayer c4nodes.enum).map Prod.fst = some 0 ∧
    (osEarlyModalExtract c4nodes.enum).1.map Prod.fst = [0, 1, 2] ∧
    _detect_and_classify_modal c4nodes = ([], [], []) :=
  ⟨by decide, by decide, rfl⟩

/-- C1 counterexample: on a one-element input whose element has an empty
label, ChromeCompressor.get_semantic_regions returns four empty regions:
the element is assigned to no region bucket, so the union of the
returned region lists is not the input element set. -/
theorem C1_counterexample :
    (get_semantic_regions cexC1 1920 1080 true).windowControls = [] ∧
    (get_semantic_regions cexC1 1920 1080 true).browserTabs = [] ∧
    (get_semantic_regions cexC1 1920 1080 true).browserUI = [] ∧
    (get_semantic_regions cexC1 1920 1080 true).content = [] ∧
    cexC1 ≠ [] :=
  ⟨rfl, rfl, rfl, rfl, by decide⟩

/-- The title and dock steps do not touch the menu flags. -/
theorem gimpTitleStep_flags (acc : GimpAcc) (n : PNode) :
    (gimpTitleStep acc n).hasImage = acc.hasImage ∧
    (gimpTitleStep acc n).hasLayer = acc.hasLayer ∧
    (gimpTitleStep acc n).hasColors = acc.hasColors := by
  unfold gimpTitleStep
  split <;> exact ⟨rfl, rfl, rfl⟩

/-- The dock step does not touch the menu flags. -/
theorem gimpDockStep_flags (acc : GimpAcc) (n : PNode) :
    (gimpDockStep acc n).hasImage = acc.hasImage ∧
    (gimpDockStep acc n).hasLayer = acc.hasLayer ∧
    (gimpDockStep acc n).hasColors = acc.hasColors := by
  unfold gimpDockStep
  split <;> exact ⟨rfl, rfl, rfl⟩

/-- The menubar dispatch sets each triad flag exactly on the matching
menubar hit. -/
theorem gimpMenuStep_flags (acc : GimpAcc) (n : PNode) :
    (gimpMenuStep acc n).hasImage = (acc.hasImage || gimpMenuHit "image" n) ∧
    (gimpMenuStep acc n).hasLayer = (acc.hasLayer || gimpMenuHit "layer" n) ∧
    (gimpMenuStep acc n).hasColors = (acc.hasColors || gimpMenuHit "colors" n) := by
  unfold gimpMenuStep gimpMenuHit
  by_cases hm : gimpMenubarCond n
  · simp only [hm, if_true, Bool.true_and]
    split_ifs with h1 h2 h3 h4 h5 h6 <;> simp_all
  · simp [hm]

/-- One gimp scan step sets the Image flag exactly on an Image menubar
hit. -/
theorem gimpStep_hasImage (acc : GimpAcc) (n : PNode) :
    (gimpStep acc n).hasImage = (acc.hasImage || gimpMenuHit "image" n) := by
  unfold gimpStep
  rw [(gimpDockStep_flags _ n).1, (gimpMenuStep_flags _ n).1,
      (gimpTitleStep_flags acc n).1]

/-- One gimp scan step sets the Layer flag exactly on a Layer menubar
hit. -/
theorem gimpStep_hasLayer (acc : GimpAcc) (n : PNode) :
    (gimpStep acc n).hasLayer = (acc.hasLayer || gimpMenuHit "layer" n) := by
  unfold gimpStep
  rw [(gimpDockStep_flags _ n).2.1, (gimpMenuStep_flags _ n).2.1,
      (gimpTitleStep_flags acc n).2.1]

/-- One gimp scan step sets the Colors flag exactly on a Colors menubar
hit. -/
theorem gimpStep_hasColors (acc : GimpAcc) (n : PNode) :
    (gimpStep acc n).hasColors = (acc.hasColors || gimpMenuHit "colors" n) := by
  unfold gimpStep
  rw [(gimpDockStep_flags _ n).2.2, (gimpMenuStep_flags _ n).2.2,
      (gimpTitleStep_flags acc n).2.2]

/-- The gimp scan's Image flag is the existence of an Image menubar hit. -/
theorem gimpFold_hasImage (nodes : List PNode) : ∀ acc : GimpAcc,
    (nodes.foldl gimpStep acc).hasImage =
      (acc.hasImage || nodes.any (gimpMenuHit "image")) := by
  induction nodes with
  | nil => intro acc; simp
  | cons n ns ih =>
    intro acc
    simp only [List.foldl_cons, List.any_cons, ih, gimpStep_hasImage, Bool.or_assoc]

/-- The gimp scan's Layer flag is the existence of a Layer menubar hit. -/
theorem gimpFold_hasLayer (nodes : List PNode) : ∀ acc : GimpAcc,
    (nodes.foldl gimpStep acc).hasLayer =
      (acc.hasLayer || nodes.any (gimpMenuHit "layer")) := by
  induction nodes with
  | nil => intro acc; simp
  | cons n ns ih =>
    intro acc
    simp only [List.foldl_cons, List.any_cons, ih, gimpStep_hasLayer, Bool.or_assoc]

/-- The gimp scan's Colors flag is the existence of a Colors menubar
hit. -/
theorem gimpFold_hasColors (nodes : List PNode) : ∀ acc : GimpAcc,
    (nodes.foldl gimpStep acc).hasColors =
      (acc.hasColors || nodes.any (gimpMenuHit "colors")) := by
  induction nodes with
  | nil => intro acc; simp
  | cons n ns ih =>
    intro acc
    simp only [List.foldl_cons, List.any_cons, ih, gimpStep_hasColors, Bool.or_assoc]

/-- C5: for every element list, _score_gimp returns exactly 0 whenever
any one of the three required menubar landmarks (menus named Image,
Layer, Colors in the top vertical band) is absent, regardless of the
other landmarks and weak signals present. -/
theorem C5_gimp_triad_gate (nodes : List PNode)
    (h : nodes.any (gimpMenuHit "image") = false ∨
         nodes.any (gimpMenuHit "layer") = false ∨
         nodes.any (gimpMenuHit "colors") = false) :
    _score_gimp nodes = 0 := by
  have hI : (gimpScan nodes).hasImage = nodes.any (gimpMenuHit "image") := by
    simpa using gimpFold_hasImage nodes {}
  have hL : (gimpScan nodes).hasLayer = nodes.any (gimpMenuHit "layer") := by
    simpa using gimpFold_hasLayer nodes {}
  have hC : (gimpScan nodes).hasColors = nodes.any (gimpMenuHit "colors") := by
    simpa using gimpFold_hasColors nodes {}
  unfold _score_gimp
  rcases h with h | h | h <;> simp [hI, hL, hC, h]

/-- C5 witness: a list with Image and Layer menubar menus, the window
title, File and Edit menus and a right-dock element, but no Colors menu,
scores 0. -/
theorem C5_witness :
    witC5.any (gimpMenuHit "colors") = false ∧ _score_gimp witC5 = 0 :=
  ⟨by decide, C5_gimp_triad_gate witC5 (Or.inr (Or.inr (by decide)))⟩

/-- C2 counterexample: on cexC2 the highest score 20 is shared by chrome
and libreoffice_impress; the tie-to-last rule of the claim picks
libreoffice_impress, but detect_domain_and_scores returns chrome, the
tied domain evaluated first. -/
theorem C2_counterexample :
    detect_domain_and_scores cexC2 = Except.ok ("chrome", cexC2Scores) ∧
    specTieToLastWinner cexC2Scores = "libreoffice_impress" ∧
    "chrome" ≠ "libreoffice_impress" :=
  ⟨rfl, rfl, by decide⟩

/-- The winner-selection fold of detect_domain_and_scores keeps the
accumulator unless a strictly greater score appears; so it returns either
the accumulator (everything at most its score) or the first list entry of
maximal, accumulator-beating score. -/
theorem pickBestAux (scores : List (String × Int)) : ∀ acc : String × Int,
    (scores.foldl (fun best p => if p.2 > best.2 then p else best) acc = acc ∧
       ∀ p ∈ scores, p.2 ≤ acc.2) ∨
    (∃ pre post r, scores = pre ++ r :: post ∧
       scores.foldl (fun best p => if p.2 > best.2 then p else best) acc = r ∧
       acc.2 < r.2 ∧ (∀ p ∈ pre, p.2 < r.2) ∧ (∀ p ∈ post, p.2 ≤ r.2)) := by
  induction scores with
  | nil => intro acc; left; exact ⟨rfl, by simp⟩
  | cons p rest ih =>
    intro acc
    simp only [List.foldl_cons]
    by_cases h : p.2 > acc.2
    · rw [if_pos h]
      rcases ih p with ⟨heq, hall⟩ | ⟨pre, post, r, hsplit, heq, hlt, hpre, hpost⟩
      · right
        exact ⟨[], rest, p, by simp, heq, h, by simp, hall⟩
      · right
        refine ⟨p :: pre, post, r, by simp [hsplit], heq, lt_trans h hlt, ?_, hpost⟩
        intro q hq
        rcases List.mem_cons.mp hq with rfl | hq
        · exact hlt
        · exact hpre q hq
    · rw [if_neg h]
      rcases ih acc with ⟨heq, hall⟩ | ⟨pre, post, r, hsplit, heq, hlt, hpre, hpost⟩
      · left
        refine ⟨heq, ?_⟩
        intro q hq
        rcases List.mem_cons.mp hq with rfl | hq
        · exact le_of_not_lt h
        · exact hall q hq
      · right
        refine ⟨p :: pre, post, r, by simp [hsplit], heq, hlt, ?_, hpost⟩
        intro q hq
        rcases List.mem_cons.mp hq with rfl | hq
        · exact lt_of_le_of_lt (le_of_not_lt h) hlt
        · exact hpre q hq

/-- C2 (amended): detect_domain_and_scores returns the argmax over the
per-domain scores with generic (scoring zero) as universal fallback, a
tie between top-scoring domains going to the one evaluated FIRST in the
fixed evaluation order (gimp, chrome, vsc, libreoffice_calc,
libreoffice_impress, libreoffice_writer, os): the winner is either
generic with every score non-positive, or a positive-scoring table entry
strictly above everything before it and at least everything after it. -/
theorem C2_first_argmax (nodes : List PNode) (d : String)
    (s : List (String × Int))
    (h : detect_domain_and_scores nodes = Except.ok (d, s)) :
    (d = "generic" ∧ ∀ p ∈ s, p.2 ≤ 0) ∨
    (∃ pre post v, s = pre ++ (d, v) :: post ∧ 0 < v ∧
       (∀ p ∈ pre, p.2 < v) ∧ (∀ p ∈ post, p.2 ≤ v)) := by
  unfold detect_domain_and_scores at h
  cases htable : domainScoreTable nodes with
  | error e => rw [htable] at h; cases h
  | ok table =>
    rw [htable] at h
    have hds : (pickBestDomain table).1 = d ∧ table = s := by
      cases h; exact ⟨rfl, rfl⟩
    obtain ⟨hd, hts⟩ := hds
    subst hts
    unfold pickBestDomain at hd
    rcases pickBestAux table ("generic", 0) with ⟨heq, hall⟩ |
      ⟨pre, post, r, hsplit, heq, hlt, hpre, hpost⟩
    · left
      rw [heq] at hd
      exact ⟨hd.symm, hall⟩
    · right
      rw [heq] at hd
      exact ⟨pre, post, r.2, by rw [← hd]; simpa using hsplit, hlt, hpre, hpost⟩

/-- C2 witness: on the empty element list every domain scores zero and
the winner is generic. -/
theorem C2_first_argmax_witness :
    ("generic" = "generic" ∧
      ∀ p ∈ ([("gimp", 0), ("chrome", 0), ("vsc", 0), ("libreoffice_calc", 0),
              ("libreoffice_impress", 0), ("libreoffice_writer", 0),
              ("os", 0)] : List (String × Int)), p.2 ≤ 0) ∨
    (∃ pre post v,
       ([("gimp", 0), ("chrome", 0), ("vsc", 0), ("libreoffice_calc", 0),
         ("libreoffice_impress", 0), ("libreoffice_writer", 0),
         ("os", 0)] : List (String × Int)) = pre ++ ("generic", v) :: post ∧
       0 < v ∧ (∀ p ∈ pre, p.2 < v) ∧ (∀ p ∈ post, p.2 ≤ v)) :=
  C2_first_argmax []  "generic" _ rfl

/-- The extent fold of _estimate_screen_size is the componentwise foldl
max over the per-node extents. -/
theorem estimateFold_eq (nodes : List PNode) : ∀ a b : Int,
    nodes.foldl
      (fun (acc : Int × Int) n =>
        let e := nodeExtent n
        (max acc.1 e.1, max acc.2 e.2)) (a, b) =
    ((nodes.map (fun n => (nodeExtent n).1)).foldl max a,
     (nodes.map (fun n => (nodeExtent n).2)).foldl max b) := by
  induction nodes with
  | nil => intro a b; rfl
  | cons n ns ih => intro a b; simp only [List.foldl_cons, List.map_cons, ih]

/-- A foldl max over elements all at most the seed returns the seed. -/
theorem foldlMax_of_all_le (l : List Int) : ∀ a : Int,
    (∀ x ∈ l, x ≤ a) → l.foldl max a = a := by
  induction l with
  | nil => intro a _; rfl
  | cons x xs ih =>
    intro a hle
    simp only [List.foldl_cons]
    rw [max_eq_left (hle x (by simp))]
    exact ih a (fun y hy => hle y (by simp [hy]))

/-- The seed and every element are at most the foldl max. -/
theorem le_foldlMax (l : List Int) : ∀ a : Int,
    a ≤ l.foldl max a ∧ ∀ x ∈ l, x ≤ l.foldl max a := by
  induction l with
  | nil => intro a; exact ⟨le_rfl, by simp⟩
  | cons x xs ih =>
    intro a
    simp only [List.foldl_cons]
    rcases ih (max a x) with ⟨hseed, hall⟩
    refine ⟨le_trans (le_max_left a x) hseed, ?_⟩
    intro y hy
    rcases List.mem_cons.mp hy with rfl | hy
    · exact le_trans (le_max_right a y) hseed
    · exact hall y hy

/-- The foldl max is the seed or a list element. -/
theorem foldlMax_mem (l : List Int) : ∀ a : Int,
    l.foldl max a = a ∨ l.foldl max a ∈ l := by
  induction l with
  | nil => intro a; left; rfl
  | cons x xs ih =>
    intro a
    simp only [List.foldl_cons]
    rcases ih (max a x) with heq | hmem
    · rcases max_cases a x with ⟨hm, _⟩ | ⟨hm, _⟩
      · left; rw [heq, hm]
      · right; rw [heq, hm]; exact List.mem_cons_self x xs
    · right; exact List.mem_cons_of_mem x hmem

/-- C10: _estimate_screen_size returns exactly 1920 (resp. 1080) when no
node's raw geometry yields a positive x+w (resp. y+h) extent — in
particular on the empty list — and otherwise returns the maximum extent
over all nodes, which is attained by some node and bounds every node. -/
theorem C10_estimate_screen_size (nodes : List PNode) :
    ((∀ n ∈ nodes, (nodeExtent n).1 ≤ 0) → (_estimate_screen_size nodes).1 = 1920) ∧
    ((∀ n ∈ nodes, (nodeExtent n).2 ≤ 0) → (_estimate_screen_size nodes).2 = 1080) ∧
    ((∃ n ∈ nodes, 0 < (nodeExtent n).1) →
       ∃ n ∈ nodes, (_estimate_screen_size nodes).1 = (nodeExtent n).1 ∧
         ∀ m ∈ nodes, (nodeExtent m).1 ≤ (nodeExtent n).1) ∧
    ((∃ n ∈ nodes, 0 < (nodeExtent n).2) →
       ∃ n ∈ nodes, (_estimate_screen_size nodes).2 = (nodeExtent n).2 ∧
         ∀ m ∈ nodes, (nodeExtent m).2 ≤ (nodeExtent n).2) := by
  unfold _estimate_screen_size
  rw [estimateFold_eq]
  simp only
  constructor
  · intro hall
    rw [foldlMax_of_all_le _ 0 (by
      intro x hx
      rcases List.mem_map.mp hx with ⟨n, hn, rfl⟩
      exact hall n hn)]
    rfl
  constructor
  · intro hall
    rw [foldlMax_of_all_le _ 0 (by
      intro x hx
      rcases List.mem_map.mp hx with ⟨n, hn, rfl⟩
      exact hall n hn)]
    rfl
  constructor
  · rintro ⟨n, hn, hpos⟩
    have hub := (le_foldlMax (nodes.map (fun n => (nodeExtent n).1)) 0).2
    have hlb : 0 < (nodes.map (fun n => (nodeExtent n).1)).foldl max 0 :=
      lt_of_lt_of_le hpos (hub _ (List.mem_map_of_mem _ hn))
    rcases foldlMax_mem (nodes.map (fun n => (nodeExtent n).1)) 0 with heq | hmem
    · omega
    · rcases List.mem_map.mp hmem with ⟨n', hn', hv⟩
      refine ⟨n', hn', ?_, ?_⟩
      · rw [if_neg (by omega)]
        exact hv.symm
      · intro m hm
        rw [hv]
        exact hub _ (List.mem_map_of_mem _ hm)
  · rintro ⟨n, hn, hpos⟩
    have hub := (le_foldlMax (nodes.map (fun n => (nodeExtent n).2)) 0).2
    have hlb : 0 < (nodes.map (fun n => (nodeExtent n).2)).foldl max 0 :=
      lt_of_lt_of_le hpos (hub _ (List.mem_map_of_mem _ hn))
    rcases foldlMax_mem (nodes.map (fun n => (nodeExtent n).2)) 0 with heq | hmem
    · omega
    · rcases List.mem_map.mp hmem with ⟨n', hn', hv⟩
      refine ⟨n', hn', ?_, ?_⟩
      · rw [if_neg (by omega)]
        exact hv.symm
      · intro m hm
        rw [hv]
        exact hub _ (List.mem_map_of_mem _ hm)

/-- C10 witness: on the empty list both defaults fire; on a one-node list
with extents (150, 260) both maxima are returned. -/
theorem C10_witness :
    _estimate_screen_size [] = (1920, 1080) ∧
    (∃ n ∈ [witC10], _estimate_screen_size [witC10] =
       ((nodeExtent n).1, (nodeExtent n).2)) := by
  constructor
  · have h1 := (C10_estimate_screen_size []).1 (by simp)
    have h2 := (C10_estimate_screen_size []).2.1 (by simp)
    exact Prod.ext h1 h2
  · rcases (C10_estimate_screen_size [witC10]).2.2.1
        ⟨witC10, by simp, by decide⟩ with ⟨n, hn, hx, _⟩
    rcases (C10_estimate_screen_size [witC10]).2.2.2
        ⟨witC10, by simp, by decide⟩ with ⟨n', hn', hy, _⟩
    have hnn : n = witC10 := by simpa using hn
    have hnn' : n' = witC10 := by simpa using hn'
    subst hnn; subst hnn'
    exact ⟨witC10, by simp, Prod.ext hx hy⟩

/-- C6: each built-in chrome Modal Detector, run on an element list with
no matching anchors, returns the empty modal set and the original,
unchanged background list. -/
theorem C6_modal_noninterference (nodes : List PNode) (w h : Int) :
    (cookieAnchorIdxs nodes h = [] → cookieBannerDetect nodes w h = ([], nodes)) ∧
    (fullscreenTopCenters nodes w h = [] ∧ fullscreenBotCenters nodes w h = [] →
       fullscreenOverlayDetect nodes w h = ([], nodes)) ∧
    (floatingMenuCandidates nodes w = [] → floatingMenuDetect nodes w h = ([], nodes)) := by
  refine ⟨?_, ?_, ?_⟩
  · intro ha
    unfold cookieBannerDetect
    rw [ha]
    simp
  · rintro ⟨ht, hb⟩
    unfold fullscreenOverlayDetect
    rw [ht, hb]
    simp
  · intro hc
    unfold floatingMenuDetect
    rw [hc]

/-- C6 witness: a one-element list with no anchors passes through all
three detectors unchanged. -/
theorem C6_witness :
    cookieBannerDetect witC6 1920 1080 = ([], witC6) ∧
    fullscreenOverlayDetect witC6 1920 1080 = ([], witC6) ∧
    floatingMenuDetect witC6 1920 1080 = ([], witC6) :=
  ⟨(C6_modal_noninterference witC6 1920 1080).1 (by decide),
   (C6_modal_noninterference witC6 1920 1080).2.1 ⟨by decide, by decide⟩,
   (C6_modal_noninterference witC6 1920 1080).2.2 (by decide)⟩

/-- Membership in a selected chrome region is exactly a classification
result. -/
theorem mem_chromeRegionSelect {cls : List (Nat × Option (ChromeRegion × PNode))}
    {r : ChromeRegion} {i : Nat} {m : PNode} :
    (i, m) ∈ chromeRegionSelect cls r ↔ (i, some (r, m)) ∈ cls := by
  unfold chromeRegionSelect
  rw [List.mem_filterMap]
  constructor
  · rintro ⟨⟨j, o⟩, hmem, hf⟩
    cases o with
    | none => cases hf
    | some rm =>
      obtain ⟨r', m'⟩ := rm
      simp only at hf
      by_cases hr : r' = r
      · rw [if_pos hr] at hf
        obtain ⟨rfl, rfl⟩ : j = i ∧ m' = m := by
          constructor <;> cases hf <;> rfl
        rw [hr] at hmem
        exact hmem
      · rw [if_neg hr] at hf
        cases hf
  · intro hmem
    exact ⟨(i, some (r, m)), hmem, by simp⟩

/-- Whatever _dedup_overlapping_content returns was in its input. -/
theorem mem_dedup_sub {content : List (Nat × PNode)} {x : Nat × PNode}
    (hx : x ∈ _dedup_overlapping_content content) : x ∈ content := by
  unfold _dedup_overlapping_content at hx
  rcases List.mem_map.mp hx with ⟨⟨pos, y⟩, hmem, rfl⟩
  have h2 := List.mk_mem_enum_iff_getElem?.mp (List.mem_of_mem_filter hmem)
  rcases List.getElem?_eq_some.mp h2 with ⟨hlt, hget⟩
  simp only
  rw [← hget]
  exact content.getElem_mem hlt

/-- Any (index, node) pair in any region of get_semantic_regions comes
from the input node at that index through the classification function. -/
theorem mem_region_classify {nodes : List PNode} {w h : Int} {dry : Bool}
    {r : ChromeRegion} {i : Nat} {m : PNode}
    (hm : (i, m) ∈ (get_semantic_regions nodes w h dry).region r) :
    ∃ n, nodes[i]? = some n ∧
      chromeClassify (chromeCtxOf nodes w h dry) n = some (r, m) := by
  have hsel : (i, m) ∈ chromeRegionSelect
      (nodes.enum.map (fun p => (p.1, chromeClassify (chromeCtxOf nodes w h dry) p.2))) r := by
    cases r with
    | CONTENT =>
      unfold get_semantic_regions ChromeRegions.region at hm
      simp only at hm
      split at hm
      · exact hm
      · exact mem_dedup_sub hm
    | WINDOW_CONTROLS => exact hm
    | BROWSER_TABS => exact hm
    | BROWSER_UI => exact hm
  have hmap := mem_chromeRegionSelect.mp hsel
  rcases List.mem_map.mp hmap with ⟨⟨j, n⟩, henum, heq⟩
  obtain ⟨rfl, hcls⟩ : j = i ∧ chromeClassify (chromeCtxOf nodes w h dry) n = some (r, m) := by
    constructor
    · exact congrArg Prod.fst heq
    · have := congrArg Prod.snd heq
      simpa using this
  exact ⟨n, List.mk_mem_enum_iff_getElem?.mp henum, hcls⟩

/-- In a dry run the toolbar fallback consumes the node unchanged or not
at all. -/
theorem chromeToolbarFallback_dry_shape {ctx : ChromeCtx} {n : PNode}
    (hdry : ctx.dryRun = true) :
    chromeToolbarFallback ctx n = none ∨ chromeToolbarFallback ctx n = some none ∨
    chromeToolbarFallback ctx n = some (some (ChromeRegion.BROWSER_UI, n)) := by
  unfold chromeToolbarFallback
  simp only [retag, hdry, eq_self_iff_true, if_true]
  repeat first
    | exact Or.inl rfl
    | exact Or.inr (Or.inl rfl)
    | exact Or.inr (Or.inr rfl)
    | split

/-- In a dry run the content step drops the node or keeps it unchanged. -/
theorem chromeContentStep_dry_shape {ctx : ChromeCtx} {n : PNode}
    (hdry : ctx.dryRun = true) :
    chromeContentStep ctx n = none ∨
    chromeContentStep ctx n = some (ChromeRegion.CONTENT, n) := by
  unfold chromeContentStep
  simp only [retag, hdry, eq_self_iff_true, if_true, ite_self]
  repeat first
    | exact Or.inl rfl
    | exact Or.inr rfl
    | split

/-- In a dry run the classifier drops the node or assigns it unchanged. -/
theorem chromeClassify_dry_shape {ctx : ChromeCtx} {n : PNode}
    (hdry : ctx.dryRun = true) :
    chromeClassify ctx n = none ∨ ∃ r, chromeClassify ctx n = some (r, n) := by
  have hfb := @chromeToolbarFallback_dry_shape ctx n hdry
  have hcs := @chromeContentStep_dry_shape ctx n hdry
  unfold chromeClassify
  simp only [retag, hdry, eq_self_iff_true, if_true]
  split
  · exact Or.inr ⟨_, rfl⟩
  split
  · exact Or.inr ⟨_, rfl⟩
  split
  · exact Or.inr ⟨_, rfl⟩
  split
  next r heq =>
    rcases hfb with h | h | h <;> rw [h] at heq
    · cases heq
    · cases heq
      exact Or.inl rfl
    · cases heq
      exact Or.inr ⟨_, rfl⟩
  next heq =>
    split
    · exact Or.inr ⟨_, rfl⟩
    · rcases hcs with hc | hc <;> rw [hc]
      · exact Or.inl rfl
      · exact Or.inr ⟨_, rfl⟩

/-- In a dry run the classifier returns the input node unchanged. -/
theorem chromeClassify_dry {ctx : ChromeCtx} {n m : PNode} {r : ChromeRegion}
    (hdry : ctx.dryRun = true)
    (hcls : chromeClassify ctx n = some (r, m)) : m = n := by
  rcases @chromeClassify_dry_shape ctx n hdry with h | ⟨r', h⟩
  · rw [hcls] at h
    cases h
  · rw [hcls] at h
    cases h
    rfl

/-- C1 (amended): ChromeCompressor.get_semantic_regions assigns every
input element to AT MOST one region bucket: a pair (index, node) appears
in at most one of the four returned region lists, every such pair comes
from the input node at that index through the per-node classification
(in a dry run, unchanged), and elements the classifier drops (empty or
trivial labels, advertisements, toolbar-area non-interactive tags in the
anchorless fallback, and overlap-dedup losers) appear in no region. -/
theorem C1_regions_at_most_one (nodes : List PNode) (w h : Int) (dry : Bool) :
    (∀ r r' i m m',
       (i, m) ∈ (get_semantic_regions nodes w h dry).region r →
       (i, m') ∈ (get_semantic_regions nodes w h dry).region r' →
       r = r' ∧ m = m') ∧
    (∀ r i m, (i, m) ∈ (get_semantic_regions nodes w h dry).region r →
       ∃ n, nodes[i]? = some n ∧
         chromeClassify (chromeCtxOf nodes w h dry) n = some (r, m) ∧
         (dry = true → m = n)) := by
  constructor
  · intro r r' i m m' hm hm'
    rcases mem_region_classify hm with ⟨n, hn, hc⟩
    rcases mem_region_classify hm' with ⟨n', hn', hc'⟩
    have hnn : n = n' := by
      rw [hn] at hn'
      cases hn'
      rfl
    rw [← hnn] at hc'
    rw [hc] at hc'
    obtain ⟨h1, h2⟩ : r = r' ∧ m = m' := by
      cases hc'
      exact ⟨rfl, rfl⟩
    exact ⟨h1, h2⟩
  · intro r i m hm
    rcases mem_region_classify hm with ⟨n, hn, hc⟩
    exact ⟨n, hn, hc, fun hd => chromeClassify_dry (by simp [chromeCtxOf, hd]) hc⟩

/-- C1 witness: on the one-link input the CONTENT element at index 0 is
the input element itself, classified to CONTENT. -/
theorem C1_regions_witness :
    ∃ n, witC1[0]? = some n ∧
      chromeClassify (chromeCtxOf witC1 1920 1080 true) n =
        some (ChromeRegion.CONTENT,
          { tag := "link", name := "Some link",
            raw := "link\tSome link\t\t\t\t(400, 400)\t(100, 20)\t" }) ∧
      (true = true →
        ({ tag := "link", name := "Some link",
           raw := "link\tSome link\t\t\t\t(400, 400)\t(100, 20)\t" } : PNode) = n) :=
  (C1_regions_at_most_one witC1 1920 1080 true).2 ChromeRegion.CONTENT 0
    { tag := "link", name := "Some link",
      raw := "link\tSome link\t\t\t\t(400, 400)\t(100, 20)\t" }
    (by decide)

/-- Python split never returns an empty part list. -/
theorem splitCh_ne_nil (sep : Char) (l : List Char) : splitCh sep l ≠ [] := by
  cases l with
  | nil => simp [splitCh]
  | cons c rest =>
    unfold splitCh
    cases h : splitCh sep rest with
    | nil => simp
    | cons g gs =>
      by_cases hc : c = sep <;> simp [hc]

/-- The tab split of any line is non-empty. -/
theorem pySplitTab_ne_nil (s : String) : pySplitTab s ≠ [] := by
  unfold pySplitTab
  intro h
  exact splitCh_ne_nil '\t' s.data (List.map_eq_nil_iff.mp h)

/-- Indexing a non-empty list at 0 succeeds, with the head. -/
theorem pyIdx_zero (l : List String) (h : l ≠ []) :
    pyIdx l 0 = Except.ok (l.headD "") := by
  cases l with
  | nil => exact absurd rfl h
  | cons a t => rfl

/-- Flushing a pending buffer never raises. -/
theorem flushPending_ok (pl : String) : ∃ nd, flushPendingNode pl = Except.ok nd := by
  unfold flushPendingNode
  rw [pyIdx_zero _ (pySplitTab_ne_nil pl)]
  exact ⟨_, rfl⟩

/-- One parser step never raises: the only unguarded indexings are at
index 0 of a split result, which is never empty. -/
theorem processLine_ok (st : PState) (l : String) :
    ∃ st', processLine st l = Except.ok st' := by
  simp only [processLine]
  split
  · exact ⟨st, rfl⟩
  split
  · exact ⟨st, rfl⟩
  cases hp : st.pending with
  | none => exact ⟨_, rfl⟩
  | some pl =>
    dsimp only
    rw [pyIdx_zero _ (pySplitTab_ne_nil _)]
    dsimp only
    split
    · exact ⟨_, rfl⟩
    · rcases flushPending_ok pl with ⟨nd, hnd⟩
      rw [hnd]
      dsimp only
      exact ⟨_, rfl⟩

/-- Folding the parser over any line list never raises. -/
theorem runLines_ok (lines : List String) : ∀ st, ∃ st', runLines st lines = Except.ok st' := by
  induction lines with
  | nil => intro st; exact ⟨st, rfl⟩
  | cons l ls ih =>
    intro st
    rcases processLine_ok st l with ⟨st1, h1⟩
    rcases ih st1 with ⟨st2, h2⟩
    refine ⟨st2, ?_⟩
    unfold runLines
    rw [h1]
    exact h2

/-- C9: parse_raw_a11y is total — on every input string, arbitrarily
malformed ones included, it returns a node list and never raises. -/
theorem C9_parse_total (text : String) :
    ∃ nodes, parse_raw_a11y text = Except.ok nodes := by
  unfold parse_raw_a11y
  rcases runLines_ok (pySplitlines text) ⟨[], none⟩ with ⟨st, hst⟩
  rw [hst]
  dsimp only
  cases hp : st.pending with
  | none => exact ⟨_, rfl⟩
  | some pl =>
    dsimp only
    rcases flushPending_ok pl with ⟨nd, hnd⟩
    rw [hnd]
    dsimp only
    exact ⟨_, rfl⟩

/-- No known tag lowercases to the header token tag. -/
theorem knownTag_lower_ne_tag {t : String} (h : knownTag t = true) :
    pyLower t ≠ "tag" := by
  have hm : t ∈ KNOWN_TAGS := by
    unfold knownTag at h
    exact List.mem_of_elem_eq_true h
  have hall : ∀ t ∈ KNOWN_TAGS, pyLower t ≠ "tag" := by decide
  exact hall t hm

/-- A blank line leaves the parser state unchanged. -/
theorem processLine_blank {st : PState} {l : String} (h : pyStrip l = "") :
    processLine st l = Except.ok st := by
  simp only [processLine]
  rw [if_pos h]

/-- A header line leaves the parser state unchanged. -/
theorem processLine_header {st : PState} {l : String} (hb : pyStrip l ≠ "")
    (hh : isHeaderStripped (pyStrip l) = true) :
    processLine st l = Except.ok st := by
  simp only [processLine]
  rw [if_neg hb, if_pos hh]

/-- The main phase on a well-formed row emits exactly its node. -/
theorem processMain_wf {rev : List PNode} {oline strippedNow : String}
    {partsNow : List String} {tagNow : String}
    (hlen : partsNow.length ≥ 5) (htag : knownTag tagNow = true) :
    processMain rev oline strippedNow partsNow tagNow =
      ⟨wellFormedNode oline partsNow tagNow :: rev, none⟩ := by
  unfold processMain
  rw [if_neg (knownTag_lower_ne_tag htag)]
  have hwf : (decide (partsNow.length ≥ 5) && knownTag tagNow) = true := by
    simp [hlen, htag]
  simp only [hwf, Bool.not_true, Bool.false_eq_true, if_false]

/-- The main phase on a short paragraph row buffers it as pending. -/
theorem processMain_para {rev : List PNode} {oline strippedNow : String}
    {partsNow : List String} {tagNow : String}
    (htag : tagNow = "paragraph") (hsmall : partsNow.length < 5) :
    processMain rev oline strippedNow partsNow tagNow = ⟨rev, some oline⟩ := by
  subst htag
  unfold processMain
  rw [if_neg (by decide : ¬ pyLower "paragraph" = "tag")]
  have hwf : (decide (partsNow.length ≥ 5) && knownTag "paragraph") = false := by
    simp [Nat.not_le.mpr hsmall]
  simp only [hwf, Bool.not_false, if_true]

/-- With no pending buffer, a non-blank non-header line runs the main
phase directly. -/
theorem processLine_main {rev : List PNode} {l : String} (hb : pyStrip l ≠ "")
    (hh : isHeaderStripped (pyStrip l) = false) :
    processLine ⟨rev, none⟩ l =
      Except.ok (processMain rev l (pyStrip l) (pySplitTab l) (firstCol l)) := by
  simp only [processLine]
  rw [if_neg hb, if_neg (by simp [hh])]
  rfl

/-- Unfolding one parser step over a line list. -/
theorem runLines_cons {st st' : PState} {l : String} {ls : List String}
    (h : processLine st l = Except.ok st') :
    runLines st (l :: ls) = runLines st' ls := by
  have e1 : runLines st (l :: ls) =
      (match processLine st l with
       | Except.ok st2 => runLines st2 ls
       | Except.error e => Except.error e) := rfl
  rw [e1, h]

/-- The parser fold over all-well-formed input (every line blank, header
or well-formed): one node per kept line, in order, pending never set. -/
theorem runLines_allwf (lines : List String) : ∀ rev : List PNode,
    (∀ l ∈ lines, (blankLine l || headerLine l || wellFormedLine l) = true) →
    runLines ⟨rev, none⟩ lines =
      Except.ok ⟨((lines.filter keepLine).map lineNode).reverse ++ rev, none⟩ := by
  induction lines with
  | nil => intro rev _; simp [runLines]
  | cons l ls ih =>
    intro rev hall
    have hl := hall l (List.mem_cons_self l ls)
    have hrest : ∀ q ∈ ls, (blankLine q || headerLine q || wellFormedLine q) = true :=
      fun q hq => hall q (List.mem_cons_of_mem _ hq)
    by_cases hb : blankLine l = true
    · have hstep : processLine (⟨rev, none⟩ : PState) l = Except.ok ⟨rev, none⟩ :=
        processLine_blank (by simpa [blankLine] using hb)
      rw [runLines_cons hstep, ih rev hrest]
      have hk : keepLine l = false := by simp [keepLine, hb]
      simp [List.filter_cons, hk]
    · by_cases hhd : headerLine l = true
      · have hstep : processLine (⟨rev, none⟩ : PState) l = Except.ok ⟨rev, none⟩ :=
          processLine_header (by simpa [blankLine] using hb) (by simpa [headerLine] using hhd)
        rw [runLines_cons hstep, ih rev hrest]
        have hk : keepLine l = false := by simp [keepLine, hhd]
        simp [List.filter_cons, hk]
      · have hwf : wellFormedLine l = true := by
          simpa [hb, hhd] using hl
        have hparts : 5 ≤ (pySplitTab l).length ∧ knownTag (firstCol l) = true := by
          simpa [wellFormedLine] using hwf

        have hstep : processLine (⟨rev, none⟩ : PState) l =
            Except.ok ⟨lineNode l :: rev, none⟩ := by
          rw [processLine_main (by simpa [blankLine] using hb)
            (by simpa [headerLine] using hhd)]
          rw [processMain_wf hparts.1 hparts.2]
          rfl
        rw [runLines_cons hstep, ih (lineNode l :: rev) hrest]
        have hk : keepLine l = true := by simp [keepLine, hb, hhd]
        simp [List.filter_cons, hk]

/-- C7: on input in which every non-blank non-header row is well-formed
(at least 5 tab-separated columns and a known first-column tag),
parse_raw_a11y emits exactly one Element per such row, in original
order, none merged and none dropped. -/
theorem C7_roundtrip (text : String)
    (h : ∀ l ∈ pySplitlines text, (blankLine l || headerLine l || wellFormedLine l) = true) :
    parse_raw_a11y text =
      Except.ok (((pySplitlines text).filter keepLine).map lineNode) := by
  unfold parse_raw_a11y
  rw [runLines_allwf (pySplitlines text) [] h]
  simp

/-- C7 witness: a header row plus two well-formed rows parse to exactly
their two nodes, in order. -/
theorem C7_roundtrip_witness :
    parse_raw_a11y witC7 =
      Except.ok (((pySplitlines witC7).filter keepLine).map lineNode) :=
  C7_roundtrip witC7 (by decide)

/-- Unfolding split over a cons cell. -/
theorem splitCh_cons (sep c : Char) (rest : List Char) :
    splitCh sep (c :: rest) =
      match splitCh sep rest with
      | [] => [[c]]
      | g :: gs => if c = sep then [] :: g :: gs else (c :: g) :: gs := rfl

/-- Splitting distributes over an appended separator. -/
theorem splitCh_append (sep : Char) (ys : List Char) : ∀ xs : List Char,
    splitCh sep (xs ++ sep :: ys) = splitCh sep xs ++ splitCh sep ys := by
  intro xs
  induction xs with
  | nil =>
    rw [List.nil_append, splitCh_cons]
    cases h : splitCh sep ys with
    | nil => exact absurd h (splitCh_ne_nil sep ys)
    | cons g gs => simp [splitCh]
  | cons x xs ih =>
    rw [List.cons_append, splitCh_cons, ih, splitCh_cons]
    cases h : splitCh sep xs with
    | nil => exact absurd h (splitCh_ne_nil sep xs)
    | cons g gs =>
      by_cases hx : x = sep <;> simp [hx]

/-- The tab split of a tab-joined pair is the two splits appended. -/
theorem pySplitTab_append (a b : String) :
    pySplitTab (a ++ "\t" ++ b) = pySplitTab a ++ pySplitTab b := by
  unfold pySplitTab
  rw [show (a ++ "\t" ++ b).data = a.data ++ '\t' :: b.data by
        simp [String.data_append]]
  rw [splitCh_append]
  simp

/-- The first column of a tab-joined pair is the first column of the
left half. -/
theorem firstCol_append (a b : String) :
    firstCol (a ++ "\t" ++ b) = firstCol a := by
  unfold firstCol
  rw [pySplitTab_append]
  cases h : pySplitTab a with
  | nil => exact absurd h (pySplitTab_ne_nil a)
  | cons g gs => simp

/-- Reducing splitlines over a head that is not a line break. -/
theorem splitlinesCh_cons_nonLB (c : Char) (hc : isLineBreakChar c = false)
    (rest : List Char) :
    splitlinesCh (c :: rest) =
      match splitlinesCh rest with
      | [] => [[c]]
      | l :: ls => (c :: l) :: ls := by
  have hcr : c ≠ '\r' := by
    intro he
    rw [he] at hc
    cases hc
  cases rest with
  | nil => simp [splitlinesCh, hc]
  | cons d rest2 =>
    rw [splitlinesCh.eq_def]
    split
    · rename_i heq
      cases heq
    · rename_i r1 heq
      rw [List.cons.injEq] at heq
      exact absurd heq.1 hcr
    · rename_i c2 r2 heq
      rw [List.cons.injEq] at heq
      obtain ⟨h1, h2⟩ := heq
      subst h1
      subst h2
      rw [if_neg (by simp [hc])]

/-- Splitlines of a single line-break-free non-empty row is that row. -/
theorem splitlinesCh_single (l : List Char) : l ≠ [] →
    (∀ c ∈ l, isLineBreakChar c = false) → splitlinesCh l = [l] := by
  induction l with
  | nil => intro h _; exact absurd rfl h
  | cons c rest ih =>
    intro _ ha
    rw [splitlinesCh_cons_nonLB c (ha c (List.mem_cons_self c rest))]
    cases hr : rest with
    | nil => rfl
    | cons d rest2 =>
      rw [← hr, ih (by simp [hr]) (fun q hq => ha q (List.mem_cons_of_mem _ hq))]

/-- Splitlines splits at an embedded newline after a line-break-free
prefix. -/
theorem splitlinesCh_append (b : List Char) : ∀ a : List Char,
    (∀ c ∈ a, isLineBreakChar c = false) →
    splitlinesCh (a ++ '\n' :: b) = a :: splitlinesCh b := by
  intro a
  induction a with
  | nil =>
    intro _
    simp only [List.nil_append]
    rw [splitlinesCh.eq_def]
    split
    · rename_i heq
      cases heq
    · rename_i r1 heq
      rw [List.cons.injEq] at heq
      exact absurd heq.1 (by decide)
    · rename_i c2 r2 heq
      rw [List.cons.injEq] at heq
      obtain ⟨h1, h2⟩ := heq
      subst h1
      subst h2
      rw [if_pos (by decide)]
  | cons c a' ih =>
    intro ha
    simp only [List.cons_append]
    rw [splitlinesCh_cons_nonLB c (ha c (List.mem_cons_self c a')),
        ih (fun q hq => ha q (List.mem_cons_of_mem _ hq))]

/-- pySplitlines of two line-break-free rows joined by a newline. -/
theorem pySplitlines_two (l1 l2 : String) (h1 : singleRow l1 = true)
    (h2 : singleRow l2 = true) (h2ne : l2 ≠ "") :
    pySplitlines (l1 ++ "\n" ++ l2) = [l1, l2] := by
  unfold pySplitlines
  rw [show (l1 ++ "\n" ++ l2).data = l1.data ++ '\n' :: l2.data by
        simp [String.data_append]]
  rw [splitlinesCh_append l2.data l1.data (by
    intro c hc
    have h := List.all_eq_true.mp h1 c hc
    simpa using h)]
  rw [splitlinesCh_single l2.data (by
      intro h
      exact h2ne (by cases l2 with | mk d => cases h; rfl))
    (by
      intro c hc
      have h := List.all_eq_true.mp h2 c hc
      simpa using h)]
  rfl

/-- Stripping only removes characters. -/
theorem mem_pyStripL {c : Char} {l : List Char} (h : c ∈ pyStripL l) : c ∈ l := by
  unfold pyStripL at h
  have h1 := List.mem_reverse.mp h
  have hs1 : ((l.dropWhile pyIsWs).reverse.dropWhile pyIsWs).Sublist
      ((l.dropWhile pyIsWs).reverse) := by
    apply List.dropWhile_sublist
  have h2 := hs1.subset h1
  have h3 := List.mem_reverse.mp h2
  have hs2 : (l.dropWhile pyIsWs).Sublist l := by
    apply List.dropWhile_sublist
  exact hs2.subset h3

/-- rstrip of a newline-free string is the string itself. -/
theorem pyRstripNewline_eq {s : String} (h : ∀ c ∈ s.data, c ≠ '\n') :
    pyRstripNewline s = s := by
  unfold pyRstripNewline
  have hdw : s.data.reverse.dropWhile (fun c => c = '\n') = s.data.reverse := by
    cases hr : s.data.reverse with
    | nil => rfl
    | cons c rest =>
      have hc : c ∈ s.data := by
        have : c ∈ s.data.reverse := by
          rw [hr]
          exact List.mem_cons_self c rest
        exact List.mem_reverse.mp this
      have hne := h c hc
      simp [List.dropWhile_cons, hne]
  rw [hdw, List.reverse_reverse]

/-- C8: a pending paragraph row (paragraph-tagged, fewer than 5 columns)
followed by a row whose tab-join with it has at least 5 columns, a known
tag and a coordinate token, produces exactly ONE Element — never two —
whose raw line is the tab-join of the two rows. -/
theorem C8_paragraph_merge (l1 l2 : String)
    (h1row : singleRow l1 = true) (h2row : singleRow l2 = true)
    (h1nb : blankLine l1 = false) (h1nh : headerLine l1 = false)
    (h1tag : firstCol l1 = "paragraph")
    (h1len : (pySplitTab l1).length < 5)
    (h2nb : blankLine l2 = false) (h2nh : headerLine l2 = false)
    (hlen : (pySplitTab (l1 ++ "\t" ++ pyStrip l2)).length ≥ 5)
    (hcoord : COORD_RE_search (l1 ++ "\t" ++ pyStrip l2) = true) :
    parse_raw_a11y (l1 ++ "\n" ++ l2) =
      Except.ok [lineNode (l1 ++ "\t" ++ pyStrip l2)] ∧
    (lineNode (l1 ++ "\t" ++ pyStrip l2)).raw = l1 ++ "\t" ++ pyStrip l2 := by
  have hb1 : pyStrip l1 ≠ "" := by simpa [blankLine] using h1nb
  have hh1 : isHeaderStripped (pyStrip l1) = false := by simpa [headerLine] using h1nh
  have hb2 : pyStrip l2 ≠ "" := by simpa [blankLine] using h2nb
  have hh2 : isHeaderStripped (pyStrip l2) = false := by simpa [headerLine] using h2nh
  have hl2ne : l2 ≠ "" := by
    intro he
    subst he
    exact hb2 rfl
  have hstep1 : processLine (⟨[], none⟩ : PState) l1 = Except.ok ⟨[], some l1⟩ := by
    rw [processLine_main hb1 hh1, processMain_para h1tag h1len]
  have hctag : pyStrip ((pySplitTab (l1 ++ "\t" ++ pyStrip l2)).headD "") = "paragraph" := by
    have := firstCol_append l1 (pyStrip l2)
    rw [h1tag] at this
    exact this
  have hknown : knownTag (pyStrip ((pySplitTab (l1 ++ "\t" ++ pyStrip l2)).headD "")) = true := by
    rw [hctag]
    decide
  have hstep2 : processLine (⟨[], some l1⟩ : PState) l2 =
      Except.ok ⟨[lineNode (l1 ++ "\t" ++ pyStrip l2)], none⟩ := by
    simp only [processLine]
    rw [if_neg hb2, if_neg (by simp [hh2])]
    rw [pyIdx_zero _ (pySplitTab_ne_nil _)]
    dsimp only
    rw [if_pos (show (decide ((pySplitTab (l1 ++ "\t" ++ pyStrip l2)).length ≥ 5) &&
        knownTag (pyStrip ((pySplitTab (l1 ++ "\t" ++ pyStrip l2)).headD "")) &&
        COORD_RE_search (l1 ++ "\t" ++ pyStrip l2)) = true by
      rw [hknown, hcoord, decide_eq_true hlen]
      rfl)]
    rw [processMain_wf hlen hknown]
    rfl
  refine ⟨?_, ?_⟩
  · unfold parse_raw_a11y
    rw [pySplitlines_two l1 l2 h1row h2row hl2ne]
    rw [runLines_cons hstep1, runLines_cons hstep2]
    rfl
  · show pyRstripNewline (l1 ++ "\t" ++ pyStrip l2) = l1 ++ "\t" ++ pyStrip l2
    apply pyRstripNewline_eq
    intro c hc
    have hdata : c ∈ l1.data ++ '\t' :: (pyStrip l2).data := by
      simpa [String.data_append] using hc
    intro hnl
    subst hnl
    rcases List.mem_append.mp hdata with h1 | h2
    · have := List.all_eq_true.mp h1row _ h1
      exact absurd this (by decide)
    · rcases List.mem_cons.mp h2 with he | h3
      · cases he
      · have := List.all_eq_true.mp h2row _ (mem_pyStripL h3)
        exact absurd this (by decide)

/-- C8 witness: the concrete pending paragraph row and its completing
row parse to exactly one merged node. -/
theorem C8_paragraph_merge_witness :
    parse_raw_a11y (witC8a ++ "\n" ++ witC8b) =
      Except.ok [lineNode (witC8a ++ "\t" ++ pyStrip witC8b)] ∧
    (lineNode (witC8a ++ "\t" ++ pyStrip witC8b)).raw =
      witC8a ++ "\t" ++ pyStrip witC8b :=
  C8_paragraph_merge witC8a witC8b (by decide) (by decide) (by decide) (by decide)
    (by decide) (by decide) (by decide) (by decide) (by decide) (by decide)

end A11y
